import Mathlib

/-!
Verification of the AntennaSim backend core against its specification.

The numeric code of the backend works on IEEE doubles; here every float is
idealized as a real number (or a rational where the code only does field
arithmetic and comparisons), which is the usual shallow embedding for this
kind of numeric code.  Python's `round(x, n)` rounds half to even; it is
modelled by `rndEven` / `roundTo` below.
-/

namespace AntennaSim

/-- Python's `round` on a scalar: round to the nearest integer, ties to the
even neighbour (banker's rounding). -/
def rndEven {α : Type} [LinearOrderedField α] [FloorRing α] [DecidableEq α]
    (x : α) : ℤ :=
  if Int.fract x = 1 / 2 then (if 2 ∣ ⌊x⌋ then ⌊x⌋ else ⌊x⌋ + 1)
  else round x

/-- Python's `round(x, d)`: scale by `10^d`, round half to even, scale back. -/
def roundTo {α : Type} [LinearOrderedField α] [FloorRing α] [DecidableEq α]
    (d : ℕ) (x : α) : α :=
  (rndEven (x * 10 ^ d) : α) / 10 ^ d

theorem rndEven_le {α : Type} [LinearOrderedField α] [FloorRing α]
    [DecidableEq α] (x : α) : (rndEven x : α) ≤ x + 1 / 2 := by
  unfold rndEven
  split
  · next h =>
    have hx : x = (⌊x⌋ : α) + 1 / 2 := by
      have := Int.fract_add_floor x
      rw [h] at this
      linarith
    split
    · linarith
    · push_cast; linarith
  · have h := abs_sub_round x
    rw [abs_le] at h
    linarith [h.1]

theorem le_rndEven {α : Type} [LinearOrderedField α] [FloorRing α]
    [DecidableEq α] (x : α) : x - 1 / 2 ≤ (rndEven x : α) := by
  unfold rndEven
  split
  · next h =>
    have hx : x = (⌊x⌋ : α) + 1 / 2 := by
      have := Int.fract_add_floor x
      rw [h] at this
      linarith
    split
    · linarith
    · push_cast; linarith
  · have h := abs_sub_round x
    rw [abs_le] at h
    linarith [h.2]

theorem rndEven_mono {α : Type} [LinearOrderedField α] [FloorRing α]
    [DecidableEq α] {x y : α} (hxy : x ≤ y) : rndEven x ≤ rndEven y := by
  by_contra hlt
  push_neg at hlt
  have hstep : rndEven y + 1 ≤ rndEven x := hlt
  have hcast : (rndEven y : α) + 1 ≤ (rndEven x : α) := by
    exact_mod_cast hstep
  have h1 := rndEven_le x
  have h2 := le_rndEven y
  have hyx : y ≤ x := by linarith
  have hxy' : x = y := le_antisymm hxy hyx
  rw [hxy'] at hlt
  exact lt_irrefl _ hlt

theorem rndEven_intCast {α : Type} [LinearOrderedField α] [FloorRing α]
    [DecidableEq α] (n : ℤ) : rndEven (n : α) = n := by
  unfold rndEven
  rw [Int.fract_intCast]
  have : (0 : α) ≠ 1 / 2 := by norm_num
  rw [if_neg this, round_intCast]

theorem roundTo_mono {α : Type} [LinearOrderedField α] [FloorRing α]
    [DecidableEq α] (d : ℕ) {x y : α} (hxy : x ≤ y) :
    roundTo d x ≤ roundTo d y := by
  unfold roundTo
  have hp : (0 : α) < 10 ^ d := by positivity
  have hm : x * 10 ^ d ≤ y * 10 ^ d := by
    exact mul_le_mul_of_nonneg_right hxy (le_of_lt hp)
  have := rndEven_mono hm
  have hcast : ((rndEven (x * 10 ^ d) : ℤ) : α) ≤ ((rndEven (y * 10 ^ d) : ℤ) : α) := by
    exact_mod_cast this
  exact div_le_div_of_nonneg_right hcast hp.le

/-! ## `compute_swr` (simulation/nec_output.py lines 173-192)

Faithful embedding over ℝ of:

```
def compute_swr(z_real, z_imag, z0=50.0):
    num_real = z_real - z0 ; num_imag = z_imag
    den_real = z_real + z0 ; den_imag = z_imag
    den_mag_sq = den_real*den_real + den_imag*den_imag
    if den_mag_sq < 1e-30: return 999.0
    gamma_real = (num_real*den_real + num_imag*den_imag) / den_mag_sq
    gamma_imag = (num_imag*den_real - num_real*den_imag) / den_mag_sq
    gamma_mag = sqrt(gamma_real**2 + gamma_imag**2)
    if gamma_mag >= 1.0: return 999.0
    swr = (1.0 + gamma_mag) / (1.0 - gamma_mag)
    return round(swr, 4)
```
-/

noncomputable def compute_swr (z_real z_imag : ℝ) (z0 : ℝ := 50) : ℝ :=
  let num_real := z_real - z0
  let num_imag := z_imag
  let den_real := z_real + z0
  let den_imag := z_imag
  let den_mag_sq := den_real * den_real + den_imag * den_imag
  if den_mag_sq < 1e-30 then 999
  else
    let gamma_real := (num_real * den_real + num_imag * den_imag) / den_mag_sq
    let gamma_imag := (num_imag * den_real - num_real * den_imag) / den_mag_sq
    let gamma_mag := Real.sqrt (gamma_real * gamma_real + gamma_imag * gamma_imag)
    if 1 ≤ gamma_mag then 999
    else roundTo 4 ((1 + gamma_mag) / (1 - gamma_mag))

/-- The reflection-coefficient magnitude of the spec:
`|Γ| = |Z − Z₀| / |Z + Z₀|` for `Z = z_real + i·z_imag`. -/
noncomputable def gammaMag (z_real z_imag : ℝ) (z0 : ℝ := 50) : ℝ :=
  Real.sqrt ((z_real - z0) ^ 2 + z_imag ^ 2) /
    Real.sqrt ((z_real + z0) ^ 2 + z_imag ^ 2)

theorem gammaMag_nonneg (r x : ℝ) : 0 ≤ gammaMag r x := by
  unfold gammaMag
  positivity

/-- The internally computed `gamma_mag` agrees with the spec-level `|Γ|`
whenever the denominator is nonzero (Lagrange's identity). -/
theorem gamma_mag_eq_gammaMag (r x : ℝ)
    (hD : (r + 50) * (r + 50) + x * x ≠ 0) :
    Real.sqrt
      ((((r - 50) * (r + 50) + x * x) / ((r + 50) * (r + 50) + x * x)) *
        (((r - 50) * (r + 50) + x * x) / ((r + 50) * (r + 50) + x * x)) +
       ((x * (r + 50) - (r - 50) * x) / ((r + 50) * (r + 50) + x * x)) *
        ((x * (r + 50) - (r - 50) * x) / ((r + 50) * (r + 50) + x * x))) =
    gammaMag r x := by
  have hD0 : 0 ≤ (r + 50) * (r + 50) + x * x :=
    add_nonneg (mul_self_nonneg _) (mul_self_nonneg _)
  have hDpos : 0 < (r + 50) * (r + 50) + x * x := lt_of_le_of_ne hD0 (Ne.symm hD)
  have hD' : (r + 50) ^ 2 + x ^ 2 ≠ 0 := by
    have e : (r + 50) ^ 2 + x ^ 2 = (r + 50) * (r + 50) + x * x := by ring
    rw [e]; exact hD
  have key : (((r - 50) * (r + 50) + x * x) / ((r + 50) * (r + 50) + x * x)) *
        (((r - 50) * (r + 50) + x * x) / ((r + 50) * (r + 50) + x * x)) +
       ((x * (r + 50) - (r - 50) * x) / ((r + 50) * (r + 50) + x * x)) *
        ((x * (r + 50) - (r - 50) * x) / ((r + 50) * (r + 50) + x * x)) =
       ((r - 50) ^ 2 + x ^ 2) / ((r + 50) ^ 2 + x ^ 2) := by
    field_simp
    ring
  rw [key]
  unfold gammaMag
  rw [Real.sqrt_div (by positivity)]

theorem compute_swr_small (r x : ℝ)
    (hD : (r + 50) * (r + 50) + x * x < 1e-30) :
    compute_swr r x = 999 := by
  simp only [compute_swr]
  rw [if_pos hD]

theorem compute_swr_eq (r x : ℝ)
    (hD : ¬ ((r + 50) * (r + 50) + x * x < 1e-30)) :
    compute_swr r x =
      if 1 ≤ gammaMag r x then 999
      else roundTo 4 ((1 + gammaMag r x) / (1 - gammaMag r x)) := by
  have hDne : (r + 50) * (r + 50) + x * x ≠ 0 := by
    intro h0
    apply hD
    rw [h0]
    norm_num
  simp only [compute_swr]
  rw [if_neg hD, gamma_mag_eq_gammaMag r x hDne]

theorem gammaMag_lt_one (r x : ℝ) (hr : 0 < r) : gammaMag r x < 1 := by
  unfold gammaMag
  have hlt : (r - 50) ^ 2 + x ^ 2 < (r + 50) ^ 2 + x ^ 2 := by nlinarith
  have hden : 0 < Real.sqrt ((r + 50) ^ 2 + x ^ 2) := by
    apply Real.sqrt_pos.mpr
    nlinarith [sq_nonneg x]
  rw [div_lt_one hden]
  exact Real.sqrt_lt_sqrt (by positivity) hlt

theorem den_not_small (r x : ℝ) (hr : 0 < r) :
    ¬ ((r + 50) * (r + 50) + x * x < 1e-30) := by
  have : (2500 : ℝ) ≤ (r + 50) * (r + 50) + x * x := by
    nlinarith [mul_self_nonneg x]
  intro h
  norm_num at h
  linarith

theorem compute_swr_pos_real (r x : ℝ) (hr : 0 < r) :
    compute_swr r x = roundTo 4 ((1 + gammaMag r x) / (1 - gammaMag r x)) := by
  rw [compute_swr_eq r x (den_not_small r x hr),
    if_neg (not_le.mpr (gammaMag_lt_one r x hr))]

theorem roundTo_ofInt {α : Type} [LinearOrderedField α] [FloorRing α]
    [DecidableEq α] (d : ℕ) (n : ℤ) (x : α) (hx : x * 10 ^ d = (n : α)) :
    roundTo d x = (n : α) / 10 ^ d := by
  unfold roundTo
  rw [hx, rndEven_intCast]

theorem gammaMag_fifty : gammaMag 50 0 = 0 := by
  unfold gammaMag
  have h : ((50 : ℝ) - 50) ^ 2 + 0 ^ 2 = 0 := by norm_num
  rw [h, Real.sqrt_zero, zero_div]

theorem gammaMag_zero_zero : gammaMag 0 0 = 1 := by
  unfold gammaMag
  have h1 : ((0 : ℝ) - 50) ^ 2 + 0 ^ 2 = 50 ^ 2 := by norm_num
  have h2 : ((0 : ℝ) + 50) ^ 2 + 0 ^ 2 = 50 ^ 2 := by norm_num
  rw [h1, h2, Real.sqrt_sq (by norm_num : (0:ℝ) ≤ 50)]
  norm_num

theorem gammaMag_big : gammaMag 99950 0 = 0.999 := by
  unfold gammaMag
  have h1 : ((99950 : ℝ) - 50) ^ 2 + 0 ^ 2 = 99900 ^ 2 := by norm_num
  have h2 : ((99950 : ℝ) + 50) ^ 2 + 0 ^ 2 = 100000 ^ 2 := by norm_num
  rw [h1, h2, Real.sqrt_sq (by norm_num : (0:ℝ) ≤ 99900),
    Real.sqrt_sq (by norm_num : (0:ℝ) ≤ 100000)]
  norm_num

/-- C3: `compute_swr(50, 0) = 1.0` exactly; `compute_swr(0, 0) = 999.0`;
every impedance whose reflection coefficient `Γ = (Z−50)/(Z+50)` satisfies
`|Γ| ≥ 1` yields the `999.0` sentinel; and whenever `Γ` exists (the
denominator `Z+50` is nonzero) and `|Γ| < 1` the result is
`(1+|Γ|)/(1−|Γ|)` rounded to 4 decimal places. -/
theorem swr_spec_c3 :
    compute_swr 50 0 = 1 ∧
    compute_swr 0 0 = 999 ∧
    (∀ r x : ℝ, 1 ≤ gammaMag r x → compute_swr r x = 999) ∧
    (∀ r x : ℝ, (r + 50) * (r + 50) + x * x ≠ 0 → gammaMag r x < 1 →
      compute_swr r x = roundTo 4 ((1 + gammaMag r x) / (1 - gammaMag r x))) := by
  refine ⟨?_, ?_, ?_, ?_⟩
  · rw [compute_swr_pos_real 50 0 (by norm_num), gammaMag_fifty]
    have h1 : ((1 : ℝ) + 0) / (1 - 0) = 1 := by norm_num
    rw [h1, roundTo_ofInt 4 10000 1 (by norm_num)]
    norm_num
  · have hD : ¬ (((0 : ℝ) + 50) * (0 + 50) + 0 * 0 < 1e-30) := by norm_num
    rw [compute_swr_eq 0 0 hD, if_pos (ge_of_eq gammaMag_zero_zero)]
  · intro r x h
    by_cases hD : (r + 50) * (r + 50) + x * x < 1e-30
    · exact compute_swr_small r x hD
    · rw [compute_swr_eq r x hD, if_pos h]
  · intro r x hDne hlt
    have hD : ¬ ((r + 50) * (r + 50) + x * x < 1e-30) := by
      intro hsmall
      have hx2 : (r + 50) ^ 2 + x ^ 2 < 1e-30 := by nlinarith
      have hrneg : r < 0 := by nlinarith [sq_nonneg x, sq_nonneg (r + 50)]
      have hnum : (r + 50) ^ 2 + x ^ 2 < (r - 50) ^ 2 + x ^ 2 := by nlinarith
      have hDpos : 0 < (r + 50) ^ 2 + x ^ 2 := by
        rcases lt_or_eq_of_le (by positivity : (0:ℝ) ≤ (r + 50) ^ 2 + x ^ 2) with h | h
        · exact h
        · exfalso; apply hDne; nlinarith [h.symm]
      have hsq : Real.sqrt ((r + 50) ^ 2 + x ^ 2) <
          Real.sqrt ((r - 50) ^ 2 + x ^ 2) :=
        Real.sqrt_lt_sqrt (by positivity) hnum
      have hge : 1 < gammaMag r x := by
        unfold gammaMag
        rw [lt_div_iff (Real.sqrt_pos.mpr hDpos), one_mul]
        exact hsq
      linarith
    rw [compute_swr_eq r x hD, if_neg (not_le.mpr hlt)]

theorem swr_spec_c3_witness :
    ((1 : ℝ) ≤ gammaMag 0 0 ∧ compute_swr 0 0 = 999) ∧
    (((50 : ℝ) + 50) * (50 + 50) + 0 * 0 ≠ 0 ∧ gammaMag 50 0 < 1 ∧
      compute_swr 50 0 = roundTo 4 ((1 + gammaMag 50 0) / (1 - gammaMag 50 0))) := by
  have h1 : (1 : ℝ) ≤ gammaMag 0 0 := ge_of_eq gammaMag_zero_zero
  have h2 : ((50 : ℝ) + 50) * (50 + 50) + 0 * 0 ≠ 0 := by norm_num
  have h3 : gammaMag 50 0 < 1 := by rw [gammaMag_fifty]; norm_num
  exact ⟨⟨h1, swr_spec_c3.2.2.1 0 0 h1⟩,
    ⟨h2, h3, swr_spec_c3.2.2.2 50 0 h2 h3⟩⟩

/-- C8 counterexample: The claim "`|Γ₁| ≤ |Γ₂|` implies
`compute_swr₁ ≤ compute_swr₂`" is false at `Z₁ = 99950`, `Z₂ = 0`:
there `|Γ₁| = 0.999 ≤ 1 = |Γ₂|`, yet `compute_swr 99950 0 = 1999`
exceeds the sentinel `compute_swr 0 0 = 999`. -/
theorem swr_monotone_c8_counterexample :
    gammaMag 99950 0 ≤ gammaMag 0 0 ∧
    ¬ compute_swr 99950 0 ≤ compute_swr 0 0 := by
  have e1 : compute_swr 99950 0 = 1999 := by
    rw [compute_swr_pos_real 99950 0 (by norm_num), gammaMag_big]
    have h1 : ((1 : ℝ) + 0.999) / (1 - 0.999) = 1999 := by norm_num
    rw [h1, roundTo_ofInt 4 19990000 1999 (by norm_num)]
    norm_num
  have e2 : compute_swr 0 0 = 999 := by
    have hD : ¬ (((0 : ℝ) + 50) * (0 + 50) + 0 * 0 < 1e-30) := by norm_num
    rw [compute_swr_eq 0 0 hD, if_pos (ge_of_eq gammaMag_zero_zero)]
  constructor
  · rw [gammaMag_big, gammaMag_zero_zero]; norm_num
  · rw [e1, e2]; norm_num

/-- C8 amended: Restricted to impedances with strictly positive
resistance (equivalently, reflection-coefficient magnitude strictly below
1, so the `999.0` sentinel is not involved), `compute_swr` is monotone
non-decreasing in `|Γ|`. -/
theorem swr_monotone_c8_amended (r1 x1 r2 x2 : ℝ) (h1 : 0 < r1) (h2 : 0 < r2)
    (hm : gammaMag r1 x1 ≤ gammaMag r2 x2) :
    compute_swr r1 x1 ≤ compute_swr r2 x2 := by
  rw [compute_swr_pos_real r1 x1 h1, compute_swr_pos_real r2 x2 h2]
  apply roundTo_mono
  have g1nn := gammaMag_nonneg r1 x1
  have g2lt := gammaMag_lt_one r2 x2 h2
  have g1lt : gammaMag r1 x1 < 1 := lt_of_le_of_lt hm g2lt
  rw [div_le_div_iff (by linarith) (by linarith)]
  nlinarith

theorem swr_monotone_c8_amended_witness :
    (0 : ℝ) < 50 ∧ (0 : ℝ) < 99950 ∧ gammaMag 50 0 ≤ gammaMag 99950 0 ∧
      compute_swr 50 0 ≤ compute_swr 99950 0 := by
  have hm : gammaMag 50 0 ≤ gammaMag 99950 0 := by
    rw [gammaMag_fifty, gammaMag_big]; norm_num
  exact ⟨by norm_num, by norm_num, hm,
    swr_monotone_c8_amended 50 0 99950 0 (by norm_num) (by norm_num) hm⟩

/-! ## Request data model (models/antenna.py, ground.py, simulation.py)

Float-valued fields are embedded as rationals (the deck builder and the
validators only do field arithmetic and comparisons on them). -/

structure Wire where
  tag : ℤ
  segments : ℤ
  x1 : ℚ
  y1 : ℚ
  z1 : ℚ
  x2 : ℚ
  y2 : ℚ
  z2 : ℚ
  radius : ℚ
  deriving DecidableEq, Repr

structure Excitation where
  wire_tag : ℤ
  segment : ℤ
  voltage_real : ℚ
  voltage_imag : ℚ
  deriving DecidableEq, Repr

/-- NEC2 LD card load types (`LoadType` enum, values 0/1/4/5). -/
inductive LoadType where
  | series_rlc
  | parallel_rlc
  | fixed_impedance
  | wire_conductivity
  deriving DecidableEq, Repr

def LoadType.value : LoadType → ℤ
  | .series_rlc => 0
  | .parallel_rlc => 1
  | .fixed_impedance => 4
  | .wire_conductivity => 5

structure LumpedLoad where
  load_type : LoadType
  wire_tag : ℤ
  segment_start : ℤ
  segment_end : ℤ
  param1 : ℚ
  param2 : ℚ
  param3 : ℚ
  deriving DecidableEq, Repr

structure WireArc where
  tag : ℤ
  segments : ℤ
  arc_radius : ℚ
  start_angle : ℚ
  end_angle : ℚ
  wire_radius : ℚ
  deriving DecidableEq, Repr

structure GeometryTransform where
  tag_increment : ℤ
  n_new_structures : ℤ
  rot_x : ℚ
  rot_y : ℚ
  rot_z : ℚ
  trans_x : ℚ
  trans_y : ℚ
  trans_z : ℚ
  start_tag : ℤ
  deriving DecidableEq, Repr

structure CylindricalSymmetry where
  tag_increment : ℤ
  n_copies : ℤ
  deriving DecidableEq, Repr

structure TransmissionLine where
  wire_tag1 : ℤ
  segment1 : ℤ
  wire_tag2 : ℤ
  segment2 : ℤ
  impedance : ℚ
  length : ℚ
  shunt_admittance_real1 : ℚ
  shunt_admittance_imag1 : ℚ
  shunt_admittance_real2 : ℚ
  shunt_admittance_imag2 : ℚ
  deriving DecidableEq, Repr

inductive GroundType where
  | free_space
  | perfect
  | salt_water
  | fresh_water
  | pastoral
  | average
  | rocky
  | city
  | dry_sandy
  | custom
  deriving DecidableEq, Repr

/-- The dict `GROUND_PARAMS`: preset `(dielectric_constant, conductivity)` pairs. -/
def GROUND_PARAMS : GroundType → Option (ℚ × ℚ)
  | .salt_water => some (80, 5)
  | .fresh_water => some (80, 0.001)
  | .pastoral => some (14, 0.01)
  | .average => some (13, 0.005)
  | .rocky => some (12, 0.002)
  | .city => some (5, 0.001)
  | .dry_sandy => some (3, 0.0001)
  | _ => none

structure GroundConfig where
  ground_type : GroundType
  dielectric_constant : ℚ
  conductivity : ℚ
  deriving DecidableEq, Repr

/-- Method `GroundConfig.get_nec_params` (models/ground.py lines 54-64). -/
def get_nec_params (g : GroundConfig) : ℚ × ℚ :=
  if g.ground_type = GroundType.free_space then (0, 0)
  else if g.ground_type = GroundType.perfect then (0, 0)
  else if g.ground_type = GroundType.custom then
    (g.dielectric_constant, g.conductivity)
  else (GROUND_PARAMS g.ground_type).getD (g.dielectric_constant, g.conductivity)

structure FrequencyConfig where
  start_mhz : ℚ
  stop_mhz : ℚ
  steps : ℤ
  deriving DecidableEq, Repr

/-- Property `FrequencyConfig.step_mhz`. -/
def FrequencyConfig.step_mhz (f : FrequencyConfig) : ℚ :=
  if f.steps ≤ 1 then 0 else (f.stop_mhz - f.start_mhz) / (f.steps - 1)

structure PatternConfig where
  theta_start : ℚ
  theta_stop : ℚ
  theta_step : ℚ
  phi_start : ℚ
  phi_stop : ℚ
  phi_step : ℚ
  deriving DecidableEq, Repr

/-- Python `int(q)`: truncation toward zero. -/
def truncQ (q : ℚ) : ℤ := Int.tdiv q.num (q.den : ℤ)

/-- Property `PatternConfig.n_theta`. -/
def PatternConfig.n_theta (p : PatternConfig) : ℤ :=
  truncQ ((p.theta_stop - p.theta_start) / p.theta_step) + 1

/-- Property `PatternConfig.n_phi`. -/
def PatternConfig.n_phi (p : PatternConfig) : ℤ :=
  truncQ ((p.phi_stop - p.phi_start) / p.phi_step) + 1

structure NearFieldConfig where
  enabled : Bool
  plane : String
  height_m : ℚ
  extent_m : ℚ
  resolution_m : ℚ
  deriving DecidableEq, Repr

structure SimulationRequest where
  wires : List Wire
  excitations : List Excitation
  ground : GroundConfig
  frequency : FrequencyConfig
  pattern : PatternConfig
  comment : String
  loads : List LumpedLoad
  transmission_lines : List TransmissionLine
  compute_currents : Bool
  arcs : List WireArc
  transforms : List GeometryTransform
  symmetry : Option CylindricalSymmetry
  near_field : Option NearFieldConfig
  deriving DecidableEq, Repr

/-! ## Number formatting used by the deck builder

Python `f"{v:.df}"` fixed-point formatting, idealized on exact rationals:
round half to even at `d` decimals, keep the sign of the input (Python
prints `-0.000000` for tiny negatives). -/

def padZeros (d : ℕ) (s : String) : String :=
  String.mk (List.replicate (d - s.length) '0') ++ s

def fmtFixed (d : ℕ) (q : ℚ) : String :=
  let n : ℤ := rndEven (|q| * 10 ^ d)
  let m : ℕ := n.toNat
  let ip : ℕ := m / 10 ^ d
  let fp : ℕ := m % 10 ^ d
  (if q < 0 then "-" else "") ++ toString ip ++
    (if d = 0 then "" else "." ++ padZeros d (toString fp))

def dropTrailingZeros (s : String) : String :=
  String.mk ((s.data.reverse.dropWhile (fun c => c = '0')).reverse)

/-- Python `f"{v:.6g}"` general formatting, idealized on exact rationals:
round to `p` significant digits, then fixed notation when the decimal
exponent `X` satisfies `-4 ≤ X < p`, exponential notation otherwise, with
trailing zeros (and a bare decimal point) removed. -/
def fmtG (p : ℕ) (q : ℚ) : String :=
  if q = 0 then "0"
  else
    let sign := if q < 0 then "-" else ""
    let a := |q|
    let e0 : ℤ := Int.log 10 a
    let scaled0 : ℤ := rndEven (a * (10 : ℚ) ^ (((p : ℤ) - 1) - e0))
    let scaled : ℤ := if scaled0 = 10 ^ p then 10 ^ (p - 1) else scaled0
    let ex : ℤ := if scaled0 = 10 ^ p then e0 + 1 else e0
    let digits := toString scaled.toNat
    if -4 ≤ ex ∧ ex < (p : ℤ) then
      if 0 ≤ ex then
        let k := ex.toNat + 1
        let ipart := String.mk (digits.data.take k)
        let fpart := dropTrailingZeros (String.mk (digits.data.drop k))
        sign ++ ipart ++ (if fpart = "" then "" else "." ++ fpart)
      else
        let zeros := String.mk (List.replicate ((-ex).toNat - 1) '0')
        sign ++ "0." ++ zeros ++ dropTrailingZeros digits
    else
      let mant := String.mk (digits.data.take 1)
      let mfrac := dropTrailingZeros (String.mk (digits.data.drop 1))
      let esign := if 0 ≤ ex then "+" else "-"
      let eabs := toString ex.natAbs
      sign ++ mant ++ (if mfrac = "" then "" else "." ++ mfrac) ++
        "e" ++ esign ++ padZeros 2 eabs

/-! ## Deck builder (simulation/nec_input.py, `build_card_deck`) -/

def gwCard (wire : Wire) : String :=
  "GW " ++ toString wire.tag ++ " " ++ toString wire.segments ++ " " ++
    fmtFixed 6 wire.x1 ++ " " ++ fmtFixed 6 wire.y1 ++ " " ++
    fmtFixed 6 wire.z1 ++ " " ++ fmtFixed 6 wire.x2 ++ " " ++
    fmtFixed 6 wire.y2 ++ " " ++ fmtFixed 6 wire.z2 ++ " " ++
    fmtFixed 6 wire.radius

def gaCard (arc : WireArc) : String :=
  "GA " ++ toString arc.tag ++ " " ++ toString arc.segments ++ " " ++
    fmtFixed 6 arc.arc_radius ++ " " ++ fmtFixed 2 arc.start_angle ++ " " ++
    fmtFixed 2 arc.end_angle ++ " " ++ fmtFixed 6 arc.wire_radius

def gmCard (gm : GeometryTransform) : String :=
  "GM " ++ toString gm.tag_increment ++ " " ++ toString gm.n_new_structures ++
    " " ++ fmtFixed 4 gm.rot_x ++ " " ++ fmtFixed 4 gm.rot_y ++ " " ++
    fmtFixed 4 gm.rot_z ++ " " ++ fmtFixed 6 gm.trans_x ++ " " ++
    fmtFixed 6 gm.trans_y ++ " " ++ fmtFixed 6 gm.trans_z ++ " " ++
    toString gm.start_tag

def ldCard (ld : LumpedLoad) : String :=
  "LD " ++ toString ld.load_type.value ++ " " ++ toString ld.wire_tag ++ " " ++
    toString ld.segment_start ++ " " ++ toString ld.segment_end ++ " " ++
    fmtG 6 ld.param1 ++ " " ++ fmtG 6 ld.param2 ++ " " ++ fmtG 6 ld.param3

def tlCard (tl : TransmissionLine) : String :=
  "TL " ++ toString tl.wire_tag1 ++ " " ++ toString tl.segment1 ++ " " ++
    toString tl.wire_tag2 ++ " " ++ toString tl.segment2 ++ " " ++
    fmtFixed 4 tl.impedance ++ " " ++ fmtFixed 6 tl.length ++ " " ++
    fmtG 6 tl.shunt_admittance_real1 ++ " " ++ fmtG 6 tl.shunt_admittance_imag1 ++
    " " ++ fmtG 6 tl.shunt_admittance_real2 ++ " " ++
    fmtG 6 tl.shunt_admittance_imag2

def exCard (ex : Excitation) : String :=
  "EX 0 " ++ toString ex.wire_tag ++ " " ++ toString ex.segment ++ " 0 " ++
    fmtFixed 4 ex.voltage_real ++ " " ++ fmtFixed 4 ex.voltage_imag

/-- Every card of the deck except the final `EN` (the `lines` list of
`build_card_deck` before `lines.append("EN")`). -/
def deckHead (request : SimulationRequest) : List String :=
  ["CM " ++ request.comment, "CE"]
  ++ request.wires.map gwCard
  ++ request.arcs.map gaCard
  ++ request.transforms.map gmCard
  ++ (match request.symmetry with
      | some s => ["GR " ++ toString s.tag_increment ++ " " ++ toString s.n_copies]
      | none => [])
  ++ [if request.ground.ground_type = GroundType.free_space then "GE -1" else "GE 0"]
  ++ (if request.ground.ground_type = GroundType.free_space then ["GN -1"]
      else if request.ground.ground_type = GroundType.perfect then
        ["GN 1 0 0 0 0 0"]
      else
        ["GN 2 0 0 0 " ++ fmtFixed 4 (get_nec_params request.ground).1 ++ " " ++
          fmtFixed 6 (get_nec_params request.ground).2])
  ++ request.loads.map ldCard
  ++ request.transmission_lines.map tlCard
  ++ [if request.compute_currents then "PT 0 0 0 0" else "PT -1 0 0 0"]
  ++ request.excitations.map exCard
  ++ ["FR 0 " ++ toString request.frequency.steps ++ " 0 0 " ++
        fmtFixed 6 request.frequency.start_mhz ++ " " ++
        fmtFixed 6 request.frequency.step_mhz]
  ++ ["RP 0 " ++ toString request.pattern.n_theta ++ " " ++
        toString request.pattern.n_phi ++ " 1000 " ++
        fmtFixed 1 request.pattern.theta_start ++ " " ++
        fmtFixed 1 request.pattern.phi_start ++ " " ++
        fmtFixed 1 request.pattern.theta_step ++ " " ++
        fmtFixed 1 request.pattern.phi_step]

def buildDeckLines (request : SimulationRequest) : List String :=
  deckHead request ++ ["EN"]

/-- Python `"\n".join(lines)`. -/
def joinLines : List String → String
  | [] => ""
  | [l] => l
  | l :: ls => l ++ "\n" ++ joinLines ls

def build_card_deck (request : SimulationRequest) : String :=
  joinLines (buildDeckLines request) ++ "\n"

theorem joinLines_append_single (ls : List String) (x : String) (h : ls ≠ []) :
    joinLines (ls ++ [x]) = joinLines ls ++ "\n" ++ x := by
  induction ls with
  | nil => exact absurd rfl h
  | cons a t ih =>
    cases t with
    | nil => simp [joinLines]
    | cons b t2 =>
      have e1 : joinLines ((a :: b :: t2) ++ [x]) =
          a ++ "\n" ++ joinLines ((b :: t2) ++ [x]) := rfl
      have e2 : joinLines (a :: b :: t2) = a ++ "\n" ++ joinLines (b :: t2) := rfl
      rw [e1, ih (by simp), e2]
      simp [String.append_assoc]

theorem deckHead_ne_nil (request : SimulationRequest) :
    deckHead request ≠ [] := by
  unfold deckHead
  simp

/-- C6: `build_card_deck` is a total deterministic function of the
request (same request, byte-identical deck), its output ends in the `EN`
card followed by exactly one trailing newline, and the geometry-end and
ground cards are `GE -1`/`GN -1` for free space, `GE 0`/`GN 1 0 0 0 0 0`
for perfect ground, and `GE 0`/`GN 2 0 0 0 <eps_r> <sigma>` for every
other ground type. -/
theorem build_card_deck_c6 (request : SimulationRequest) :
    (∀ request2, request = request2 →
      build_card_deck request = build_card_deck request2) ∧
    (∃ s, build_card_deck request = s ++ "\nEN\n") ∧
    (request.ground.ground_type = GroundType.free_space →
      "GE -1" ∈ buildDeckLines request ∧ "GN -1" ∈ buildDeckLines request) ∧
    (request.ground.ground_type = GroundType.perfect →
      "GE 0" ∈ buildDeckLines request ∧
      "GN 1 0 0 0 0 0" ∈ buildDeckLines request) ∧
    (request.ground.ground_type ≠ GroundType.free_space →
      request.ground.ground_type ≠ GroundType.perfect →
      "GE 0" ∈ buildDeckLines request ∧
      ("GN 2 0 0 0 " ++ fmtFixed 4 (get_nec_params request.ground).1 ++ " " ++
        fmtFixed 6 (get_nec_params request.ground).2) ∈ buildDeckLines request) := by
  refine ⟨?_, ?_, ?_, ?_, ?_⟩
  · intro request2 h
    rw [h]
  · refine ⟨joinLines (deckHead request), ?_⟩
    unfold build_card_deck buildDeckLines
    rw [joinLines_append_single _ _ (deckHead_ne_nil request)]
    rw [String.append_assoc, String.append_assoc]
    rfl
  · intro h
    constructor <;> simp [buildDeckLines, deckHead, h]
  · intro h
    have hne : request.ground.ground_type ≠ GroundType.free_space := by
      rw [h]; intro hc; cases hc
    constructor <;> simp [buildDeckLines, deckHead, h, hne]
  · intro h1 h2
    constructor <;> simp [buildDeckLines, deckHead, h1, h2]

/-- A well-formed half-wave-dipole request, parameterized by ground type. -/
def sampleRequest (g : GroundType) : SimulationRequest where
  wires := [⟨1, 21, -5, 0, 10, 5, 0, 10, 1/1000⟩]
  excitations := [⟨1, 11, 1, 0⟩]
  ground := ⟨g, 13, 1/200⟩
  frequency := ⟨14, 14.2, 3⟩
  pattern := ⟨-90, 90, 5, 0, 355, 5⟩
  comment := "AntSim simulation"
  loads := []
  transmission_lines := []
  compute_currents := false
  arcs := []
  transforms := []
  symmetry := none
  near_field := none

theorem build_card_deck_c6_witness :
    ("GE -1" ∈ buildDeckLines (sampleRequest GroundType.free_space) ∧
      "GN -1" ∈ buildDeckLines (sampleRequest GroundType.free_space)) ∧
    ("GE 0" ∈ buildDeckLines (sampleRequest GroundType.perfect) ∧
      "GN 1 0 0 0 0 0" ∈ buildDeckLines (sampleRequest GroundType.perfect)) ∧
    ("GE 0" ∈ buildDeckLines (sampleRequest GroundType.average) ∧
      ("GN 2 0 0 0 " ++
        fmtFixed 4 (get_nec_params (sampleRequest GroundType.average).ground).1 ++
        " " ++
        fmtFixed 6 (get_nec_params (sampleRequest GroundType.average).ground).2) ∈
        buildDeckLines (sampleRequest GroundType.average)) :=
  ⟨(build_card_deck_c6 _).2.2.1 rfl,
   (build_card_deck_c6 _).2.2.2.1 rfl,
   (build_card_deck_c6 _).2.2.2.2 (by decide) (by decide)⟩

/-! ## Request validation (pydantic field constraints and model validators)

Everything the schema layer checks before a `SimulationRequest` is handed
to the core, as one boolean predicate.  The wire non-coincidence check
`sqrt(dx²+dy²+dz²) < 1e-6` is expressed on the square, `dx²+dy²+dz² <
1e-12`, which is equivalent over the reals. -/

def wireOk (w : Wire) : Bool :=
  decide (1 ≤ w.tag) && decide (w.tag ≤ 9999) &&
  decide (1 ≤ w.segments) && decide (w.segments ≤ 200) &&
  decide (-1000 ≤ w.x1) && decide (w.x1 ≤ 1000) &&
  decide (-1000 ≤ w.y1) && decide (w.y1 ≤ 1000) &&
  decide (-1000 ≤ w.z1) && decide (w.z1 ≤ 1000) &&
  decide (-1000 ≤ w.x2) && decide (w.x2 ≤ 1000) &&
  decide (-1000 ≤ w.y2) && decide (w.y2 ≤ 1000) &&
  decide (-1000 ≤ w.z2) && decide (w.z2 ≤ 1000) &&
  decide (1/10000 ≤ w.radius) && decide (w.radius ≤ 1/10) &&
  !decide ((w.x2 - w.x1) ^ 2 + (w.y2 - w.y1) ^ 2 + (w.z2 - w.z1) ^ 2 < 1e-12)

def excitationOk (e : Excitation) : Bool :=
  decide (1 ≤ e.wire_tag) && decide (e.wire_tag ≤ 9999) &&
  decide (1 ≤ e.segment) && decide (e.segment ≤ 200)

def loadOk (ld : LumpedLoad) : Bool :=
  decide (0 ≤ ld.wire_tag) && decide (ld.wire_tag ≤ 9999) &&
  decide (0 ≤ ld.segment_start) && decide (ld.segment_start ≤ 200) &&
  decide (0 ≤ ld.segment_end) && decide (ld.segment_end ≤ 200)

def arcOk (a : WireArc) : Bool :=
  decide (1 ≤ a.tag) && decide (a.tag ≤ 9999) &&
  decide (1 ≤ a.segments) && decide (a.segments ≤ 200) &&
  decide (0 < a.arc_radius) && decide (a.arc_radius ≤ 100) &&
  decide (-360 ≤ a.start_angle) && decide (a.start_angle ≤ 360) &&
  decide (-360 ≤ a.end_angle) && decide (a.end_angle ≤ 360) &&
  decide (1/10000 ≤ a.wire_radius) && decide (a.wire_radius ≤ 1/10) &&
  !decide (|a.end_angle - a.start_angle| < 1/10)

def transformOk (g : GeometryTransform) : Bool :=
  decide (0 ≤ g.tag_increment) && decide (g.tag_increment ≤ 9999) &&
  decide (0 ≤ g.n_new_structures) && decide (g.n_new_structures ≤ 100) &&
  decide (-360 ≤ g.rot_x) && decide (g.rot_x ≤ 360) &&
  decide (-360 ≤ g.rot_y) && decide (g.rot_y ≤ 360) &&
  decide (-360 ≤ g.rot_z) && decide (g.rot_z ≤ 360) &&
  decide (-1000 ≤ g.trans_x) && decide (g.trans_x ≤ 1000) &&
  decide (-1000 ≤ g.trans_y) && decide (g.trans_y ≤ 1000) &&
  decide (-1000 ≤ g.trans_z) && decide (g.trans_z ≤ 1000) &&
  decide (0 ≤ g.start_tag) && decide (g.start_tag ≤ 9999)

def symmetryOk (s : CylindricalSymmetry) : Bool :=
  decide (1 ≤ s.tag_increment) && decide (s.tag_increment ≤ 9999) &&
  decide (1 ≤ s.n_copies) && decide (s.n_copies ≤ 360)

def tlOk (tl : TransmissionLine) : Bool :=
  decide (1 ≤ tl.wire_tag1) && decide (tl.wire_tag1 ≤ 9999) &&
  decide (1 ≤ tl.segment1) && decide (tl.segment1 ≤ 200) &&
  decide (1 ≤ tl.wire_tag2) && decide (tl.wire_tag2 ≤ 9999) &&
  decide (1 ≤ tl.segment2) && decide (tl.segment2 ≤ 200) &&
  decide (1 ≤ tl.impedance) && decide (tl.impedance ≤ 1000) &&
  decide (0 ≤ tl.length) && decide (tl.length ≤ 1000)

def groundOk (g : GroundConfig) : Bool :=
  decide (1 ≤ g.dielectric_constant) && decide (g.dielectric_constant ≤ 100) &&
  decide (0 ≤ g.conductivity) && decide (g.conductivity ≤ 10)

def frequencyOk (f : FrequencyConfig) : Bool :=
  decide (1/10 ≤ f.start_mhz) && decide (f.start_mhz ≤ 2000) &&
  decide (1/10 ≤ f.stop_mhz) && decide (f.stop_mhz ≤ 2000) &&
  decide (1 ≤ f.steps) && decide (f.steps ≤ 201) &&
  !decide (f.stop_mhz < f.start_mhz)

def patternOk (p : PatternConfig) : Bool :=
  decide (-90 ≤ p.theta_start) && decide (p.theta_start ≤ 90) &&
  decide (-90 ≤ p.theta_stop) && decide (p.theta_stop ≤ 90) &&
  decide (1 ≤ p.theta_step) && decide (p.theta_step ≤ 30) &&
  decide (0 ≤ p.phi_start) && decide (p.phi_start ≤ 360) &&
  decide (0 ≤ p.phi_stop) && decide (p.phi_stop ≤ 360) &&
  decide (1 ≤ p.phi_step) && decide (p.phi_step ≤ 30)

def nearFieldOk (n : NearFieldConfig) : Bool :=
  decide (0 ≤ n.height_m) && decide (n.height_m ≤ 100) &&
  decide (1 ≤ n.extent_m) && decide (n.extent_m ≤ 200) &&
  decide (1/10 ≤ n.resolution_m) && decide (n.resolution_m ≤ 10)

/-- Lookup `wire_map[tag]`: Python dict comprehension keeps the LAST wire with a
given tag. -/
def wireByTag (ws : List Wire) (t : ℤ) : Option Wire :=
  (ws.filter (fun w => w.tag == t)).getLast?

/-- One excitation's checks in `validate_excitations_reference_valid_wires`:
the referenced tag must exist and the segment must be in range for the
wire the tag resolves to. -/
def exRefOk (ws : List Wire) (e : Excitation) : Bool :=
  match wireByTag ws e.wire_tag with
  | none => false
  | some w => decide (1 ≤ e.segment) && decide (e.segment ≤ w.segments)

def loadRefOk (ws : List Wire) (ld : LumpedLoad) : Bool :=
  (ld.wire_tag == 0) || ws.any (fun w => w.tag == ld.wire_tag)

def tlRefOk (ws : List Wire) (tl : TransmissionLine) : Bool :=
  ws.any (fun w => w.tag == tl.wire_tag1) &&
  ws.any (fun w => w.tag == tl.wire_tag2)

/-- All the request-boundary validation of `SimulationRequest`: field
ranges, per-model validators, the total-segment cap and the tag-reference
checks. -/
def validateSimulationRequest (r : SimulationRequest) : Bool :=
  decide (1 ≤ r.wires.length) && decide (r.wires.length ≤ 500) &&
  decide (1 ≤ r.excitations.length) && decide (r.excitations.length ≤ 50) &&
  decide (r.loads.length ≤ 100) && decide (r.transmission_lines.length ≤ 50) &&
  decide (r.arcs.length ≤ 100) && decide (r.transforms.length ≤ 50) &&
  decide (r.comment.length ≤ 200) &&
  r.wires.all wireOk && r.excitations.all excitationOk &&
  r.loads.all loadOk && r.transmission_lines.all tlOk &&
  r.arcs.all arcOk && r.transforms.all transformOk &&
  (match r.symmetry with | none => true | some s => symmetryOk s) &&
  (match r.near_field with | none => true | some n => nearFieldOk n) &&
  groundOk r.ground && frequencyOk r.frequency && patternOk r.pattern &&
  decide ((r.wires.map Wire.segments).sum ≤ 5000) &&
  r.excitations.all (exRefOk r.wires) &&
  r.loads.all (loadRefOk r.wires) &&
  r.transmission_lines.all (tlRefOk r.wires)

/-- A request whose two wires share tag 1. -/
def dupTagRequest : SimulationRequest where
  wires := [⟨1, 1, 0, 0, 1, 1, 0, 1, 1/1000⟩, ⟨1, 1, 0, 0, 2, 1, 0, 2, 1/1000⟩]
  excitations := [⟨1, 1, 1, 0⟩]
  ground := ⟨GroundType.free_space, 13, 1/200⟩
  frequency := ⟨14, 14, 1⟩
  pattern := ⟨-90, 90, 5, 0, 355, 5⟩
  comment := "x"
  loads := []
  transmission_lines := []
  compute_currents := false
  arcs := []
  transforms := []
  symmetry := none
  near_field := none

/-- C7 counterexample: A concrete request with two wires both tagged
`1` passes every validation check, so duplicate-tag geometries are NOT
rejected at the request boundary. -/
theorem wire_tag_unique_c7_counterexample :
    ¬ (dupTagRequest.wires.map Wire.tag).Nodup ∧
    validateSimulationRequest dupTagRequest = true := by
  constructor
  · decide
  · simp [validateSimulationRequest, dupTagRequest, wireOk, excitationOk,
      groundOk, frequencyOk, patternOk, exRefOk, wireByTag]
    norm_num
    decide

theorem wireByTag_snoc (ws : List Wire) (x : Wire) (t : ℤ) :
    wireByTag (ws ++ [x]) t =
      if x.tag == t then some x else wireByTag ws t := by
  unfold wireByTag
  rw [List.filter_append]
  cases h : (x.tag == t) with
  | true => simp [h]
  | false => simp [h]

theorem exRefOk_snoc (init : List Wire) (x : Wire) (e : Excitation) :
    exRefOk ((init ++ [x]) ++ [x]) e = exRefOk (init ++ [x]) e := by
  unfold exRefOk
  rw [wireByTag_snoc, wireByTag_snoc]
  cases h : (x.tag == e.wire_tag) <;> simp [h]

/-- C7 amended: Wire-tag uniqueness is NOT checked at the request
boundary: appending a second copy of a request's last wire (same tag, so
the wire list now carries a duplicate tag) never causes a validation
failure, as long as the list-length and segment-budget caps still hold —
so duplicate-tag geometries do reach deck building and the solver. -/
theorem wire_tag_unique_c7_amended (r : SimulationRequest) (init : List Wire)
    (x : Wire) (hsnoc : r.wires = init ++ [x])
    (hlen : r.wires.length + 1 ≤ 500)
    (hseg : (r.wires.map Wire.segments).sum + x.segments ≤ 5000)
    (hval : validateSimulationRequest r = true) :
    ¬ ((r.wires ++ [x]).map Wire.tag).Nodup ∧
    validateSimulationRequest { r with wires := r.wires ++ [x] } = true := by
  have hx_mem : x ∈ r.wires := by rw [hsnoc]; simp
  constructor
  · intro hnd
    rw [List.map_append, List.nodup_append] at hnd
    have hx : x.tag ∈ r.wires.map Wire.tag := List.mem_map_of_mem _ hx_mem
    exact hnd.2.2 hx (by simp)
  · simp only [validateSimulationRequest, Bool.and_eq_true, and_assoc,
      decide_eq_true_eq, List.all_eq_true, List.length_append,
      List.map_append, List.sum_append] at hval ⊢
    obtain ⟨h1, h2, h3, h4, h5, h6, h7, h8, h9, hw, he, hl, htl, ha, htr,
      hsym, hnf, hg, hf, hp, hs, hex, hld, htlr⟩ := hval
    refine ⟨by simp, by simp; omega, h3, h4, h5, h6, h7, h8, h9,
      ?_, he, hl, htl, ha, htr, hsym, hnf, hg, hf, hp, ?_, ?_, ?_, ?_⟩
    · intro w hw'
      rcases List.mem_append.mp hw' with h | h
      · exact hw w h
      · rw [List.mem_singleton.mp h]
        exact hw x hx_mem
    · simp only [List.map_singleton, List.sum_singleton]
      omega
    · intro e he'
      rw [hsnoc, exRefOk_snoc, ← hsnoc]
      exact hex e he'
    · intro ld hm
      have h := hld ld hm
      simp only [loadRefOk, Bool.or_eq_true, List.any_eq_true,
        beq_iff_eq] at h ⊢
      rcases h with h | ⟨w, hw', ht⟩
      · exact Or.inl h
      · exact Or.inr ⟨w, List.mem_append_left _ hw', ht⟩
    · intro tl hm
      have h := htlr tl hm
      simp only [tlRefOk, Bool.and_eq_true, List.any_eq_true,
        beq_iff_eq] at h ⊢
      obtain ⟨⟨w1, hw1, ht1⟩, ⟨w2, hw2, ht2⟩⟩ := h
      exact ⟨⟨w1, List.mem_append_left _ hw1, ht1⟩,
        ⟨w2, List.mem_append_left _ hw2, ht2⟩⟩

/-- The wire used to instantiate the C7 amended theorem. -/
def plainWire : Wire := ⟨1, 1, 0, 0, 1, 1, 0, 1, 1/1000⟩

/-- A valid single-wire request (used to instantiate the C7 theorems). -/
def singleWireRequest : SimulationRequest where
  wires := [plainWire]
  excitations := [⟨1, 1, 1, 0⟩]
  ground := ⟨GroundType.free_space, 13, 1/200⟩
  frequency := ⟨14, 14, 1⟩
  pattern := ⟨-90, 90, 5, 0, 355, 5⟩
  comment := "x"
  loads := []
  transmission_lines := []
  compute_currents := false
  arcs := []
  transforms := []
  symmetry := none
  near_field := none

theorem wire_tag_unique_c7_amended_witness :
    singleWireRequest.wires = [] ++ [plainWire] ∧
    singleWireRequest.wires.length + 1 ≤ 500 ∧
    (singleWireRequest.wires.map Wire.segments).sum + plainWire.segments ≤ 5000 ∧
    validateSimulationRequest singleWireRequest = true ∧
    (¬ ((singleWireRequest.wires ++ [plainWire]).map Wire.tag).Nodup ∧
      validateSimulationRequest
        { singleWireRequest with
          wires := singleWireRequest.wires ++ [plainWire] } = true) := by
  have hval : validateSimulationRequest singleWireRequest = true := by
    simp [validateSimulationRequest, singleWireRequest, plainWire, wireOk,
      excitationOk, groundOk, frequencyOk, patternOk, exRefOk, wireByTag]
    norm_num
    decide
  refine ⟨rfl, by simp [singleWireRequest],
    by simp [singleWireRequest, plainWire],
    hval, wire_tag_unique_c7_amended singleWireRequest [] plainWire rfl
      (by simp [singleWireRequest])
      (by simp [singleWireRequest, plainWire]) hval⟩

/-! ## Admission layer (core/rate_limiter.py, `check_rate_limit`)

The Redis client is modelled as an oracle (`RedisEnv`) giving the outcome
of each store operation the function may perform: `Except Unit α` is a
call that either returns a value or raises.  The `try`/`except` structure
of the source is mirrored: the body runs in an exception monad whose
errors distinguish the two deliberate `HTTPException(429)` rejections
(re-raised) from every other exception (swallowed, request allowed). -/

structure RateLimitSettings where
  rate_limit_enabled : Bool
  rate_limit_per_hour : ℤ
  rate_limit_window_seconds : ℤ
  max_concurrent_per_ip : ℤ
  deriving DecidableEq, Repr

/-- Outcomes of the store operations `check_rate_limit` may perform.
`pipe` is the atomic `ZREMRANGEBYSCORE`/`ZCARD`/`GET` pipeline: on success
it yields the window count and the raw concurrent value (`none` = absent
or falsy, `some (.error ())` = bytes that `int()` cannot parse). -/
structure RedisEnv where
  available : Bool
  pipe : Except Unit (ℤ × Option (Except Unit ℤ))
  zrange : Except Unit (Option ℚ)
  zadd : Except Unit Unit
  expire_rate : Except Unit Unit
  incr : Except Unit Unit
  expire_conc : Except Unit Unit

inductive AdmissionOutcome where
  | allowed
  | rejectedRateLimit (retry_after : ℤ)
  | rejectedConcurrentLimit
  deriving DecidableEq, Repr

inductive PyErr where
  | http (o : AdmissionOutcome)
  | other
  deriving DecidableEq, Repr

/-- Python `int(concurrent_raw) if concurrent_raw else 0`. -/
def parseConc : Option (Except Unit ℤ) → Except Unit ℤ
  | none => .ok 0
  | some v => v

/-- The `retry_after` computation of the rate-limit rejection:
`max(1, int(oldest_time + window - now))`, defaulting to the window when
the sorted set came back empty. -/
def retryAfter (s : RateLimitSettings) (now : ℚ) (oldest : Option ℚ) : ℤ :=
  match oldest with
  | none => s.rate_limit_window_seconds
  | some t => max 1 (truncQ (t + (s.rate_limit_window_seconds : ℚ) - now))

/-- The try body of `check_rate_limit` (rate_limiter.py lines 59-120). -/
def checkBody (s : RateLimitSettings) (env : RedisEnv) (now : ℚ) :
    Except PyErr Unit :=
  match env.pipe with
  | .error _ => .error .other
  | .ok (request_count, concurrent_raw) =>
    match parseConc concurrent_raw with
    | .error _ => .error .other
    | .ok concurrent_count =>
      if s.rate_limit_per_hour ≤ request_count then
        match env.zrange with
        | .error _ => .error .other
        | .ok oldest =>
          .error (.http (.rejectedRateLimit (retryAfter s now oldest)))
      else if s.max_concurrent_per_ip ≤ concurrent_count then
        .error (.http .rejectedConcurrentLimit)
      else
        match env.zadd with
        | .error _ => .error .other
        | .ok _ =>
          match env.expire_rate with
          | .error _ => .error .other
          | .ok _ =>
            match env.incr with
            | .error _ => .error .other
            | .ok _ =>
              match env.expire_conc with
              | .error _ => .error .other
              | .ok _ => .ok ()

/-- Function `check_rate_limit`: early return when disabled or when `get_redis()`
returns `None`; otherwise run the body, re-raise `HTTPException`, swallow
everything else and allow. -/
def check_rate_limit (s : RateLimitSettings) (env : RedisEnv) (now : ℚ) :
    AdmissionOutcome :=
  if !s.rate_limit_enabled then .allowed
  else if !env.available then .allowed
  else
    match checkBody s env now with
    | .ok _ => .allowed
    | .error (.http o) => o
    | .error .other => .allowed

/-- C1: Whenever the key-value store is unreachable, or any step of
the admission sequence errors — the pipeline itself, parsing the
concurrent counter, the `ZRANGE` used to compute `retry_after`, or any of
the four bookkeeping writes — `check_rate_limit` completes without
rejecting: the outcome is `allowed`.  Only the two deliberate rejections
can produce anything else. -/
theorem rate_limiter_c1 (s : RateLimitSettings) (env : RedisEnv) (now : ℚ) :
    (env.available = false → check_rate_limit s env now = .allowed) ∧
    (env.pipe = .error () → check_rate_limit s env now = .allowed) ∧
    (∀ cnt : ℤ, env.pipe = .ok (cnt, some (.error ())) →
      check_rate_limit s env now = .allowed) ∧
    (∀ (cnt : ℤ) raw, env.pipe = .ok (cnt, raw) →
      s.rate_limit_per_hour ≤ cnt → env.zrange = .error () →
      check_rate_limit s env now = .allowed) ∧
    (∀ (cnt : ℤ) raw (c : ℤ), env.pipe = .ok (cnt, raw) →
      parseConc raw = .ok c →
      cnt < s.rate_limit_per_hour → c < s.max_concurrent_per_ip →
      (env.zadd = .error () ∨ env.expire_rate = .error () ∨
        env.incr = .error () ∨ env.expire_conc = .error ()) →
      check_rate_limit s env now = .allowed) := by
  refine ⟨?_, ?_, ?_, ?_, ?_⟩
  · intro h
    simp [check_rate_limit, h]
  · intro h
    by_cases he : s.rate_limit_enabled <;>
      simp [check_rate_limit, checkBody, h, he]
  · intro cnt h
    by_cases he : s.rate_limit_enabled <;>
      by_cases ha : env.available <;>
        simp [check_rate_limit, checkBody, h, he, ha, parseConc]
  · intro cnt raw hpipe hge hzr
    by_cases he : s.rate_limit_enabled
    · by_cases ha : env.available
      · cases hraw : parseConc raw with
        | error e =>
          simp [check_rate_limit, checkBody, hpipe, he, ha, hraw]
        | ok c =>
          simp [check_rate_limit, checkBody, hpipe, he, ha, hraw, hge, hzr]
      · simp [check_rate_limit, ha]
    · simp [check_rate_limit, he]
  · intro cnt raw c hpipe hparse hlt1 hlt2 herr
    by_cases he : s.rate_limit_enabled
    · by_cases ha : env.available
      · have hnot1 : ¬ s.rate_limit_per_hour ≤ cnt := not_le.mpr hlt1
        have hnot2 : ¬ s.max_concurrent_per_ip ≤ c := not_le.mpr hlt2
        rcases herr with h | h | h | h
        · simp [check_rate_limit, checkBody, hpipe, he, ha, hparse,
            hnot1, hnot2, h]
        · cases hza : env.zadd with
          | error e => simp [check_rate_limit, checkBody, hpipe, he, ha,
              hparse, hnot1, hnot2, hza]
          | ok v => simp [check_rate_limit, checkBody, hpipe, he, ha,
              hparse, hnot1, hnot2, hza, h]
        · cases hza : env.zadd with
          | error e => simp [check_rate_limit, checkBody, hpipe, he, ha,
              hparse, hnot1, hnot2, hza]
          | ok v =>
            cases hzr : env.expire_rate with
            | error e => simp [check_rate_limit, checkBody, hpipe, he, ha,
                hparse, hnot1, hnot2, hza, hzr]
            | ok v2 => simp [check_rate_limit, checkBody, hpipe, he, ha,
                hparse, hnot1, hnot2, hza, hzr, h]
        · cases hza : env.zadd with
          | error e => simp [check_rate_limit, checkBody, hpipe, he, ha,
              hparse, hnot1, hnot2, hza]
          | ok v =>
            cases hzr : env.expire_rate with
            | error e => simp [check_rate_limit, checkBody, hpipe, he, ha,
                hparse, hnot1, hnot2, hza, hzr]
            | ok v2 =>
              cases hin : env.incr with
              | error e => simp [check_rate_limit, checkBody, hpipe, he, ha,
                  hparse, hnot1, hnot2, hza, hzr, hin]
              | ok v3 => simp [check_rate_limit, checkBody, hpipe, he, ha,
                  hparse, hnot1, hnot2, hza, hzr, hin, h]
      · simp [check_rate_limit, ha]
    · simp [check_rate_limit, he]

/-- Settings with rate limiting enabled (defaults 30/3600/5). -/
def defaultSettings : RateLimitSettings := ⟨true, 30, 3600, 5⟩

/-- An environment in which the admission pipeline itself raises. -/
def pipeErrEnv : RedisEnv :=
  ⟨true, .error (), .ok none, .ok (), .ok (), .ok (), .ok ()⟩

theorem rate_limiter_c1_witness :
    pipeErrEnv.pipe = .error () ∧
    check_rate_limit defaultSettings pipeErrEnv 0 = .allowed :=
  ⟨rfl, (rate_limiter_c1 defaultSettings pipeErrEnv 0).2.1 rfl⟩

/-! ## Sandbox runner (simulation/nec_runner.py, `run_nec2c`)

The filesystem and the solver subprocess are modelled as an oracle
(`RunEnv`) for the outcomes of the effects of one invocation, and the
existence of the three per-run paths (`<workdir>`, `input.nec`,
`input.out`) as explicit state threaded through the body and the
`finally` cleanup block. -/

def startsList (pat s : List Char) : Bool :=
  match pat, s with
  | [], _ => true
  | _ :: _, [] => false
  | p :: ps, c :: cs => decide (p = c) && startsList ps cs

def hasSubList (pat : List Char) : List Char → Bool
  | [] => decide (pat = [])
  | c :: rest => startsList pat (c :: rest) || hasSubList pat rest

/-- Python `pat in s` substring test. -/
def containsSub (pat s : String) : Bool := hasSubList pat.data s.data

/-- Python slicing `s[:n]` on text. -/
def takeChars (n : ℕ) (s : String) : String := String.mk (s.data.take n)

/-- Existence of the three per-run filesystem entries. -/
structure FsState where
  dir : Bool
  nec : Bool
  out : Bool
  deriving DecidableEq, Repr

/-- Oracle for the effects of one `run_nec2c` call: whether `mkdir` and
the deck write succeed, the subprocess outcome (`none` = wall-clock
timeout, otherwise return code with stdout/stderr), whether the solver
left an `input.out` file and with what content, and whether each of the
three cleanup operations succeeds. -/
structure RunEnv where
  mkdir_ok : Bool
  write_ok : Bool
  proc : Option (ℤ × String × String)
  creates_out : Bool
  out_content : String
  unlink_out_ok : Bool
  unlink_nec_ok : Bool
  rmdir_ok : Bool

/-- The typed results of `run_nec2c`: normal output, the
`NecExecutionError` variants, or an uncaught filesystem `OSError` from
`mkdir`/`write_text` (propagated after cleanup). -/
inductive RunResult where
  | ok (output : String)
  | errNonZero (returncode : ℤ) (stderr_tail : String)
  | errNoOutput (stderr_tail : String)
  | errGeometry
  | errSegment
  | errTimeout
  | osError
  deriving DecidableEq, Repr

inductive CleanupAction where
  | unlinkOut
  | unlinkNec
  | rmdirWork
  deriving DecidableEq, Repr

/-- Third step of the `finally` block: `if workdir.exists(): workdir.rmdir()`. -/
def cleanupDir (env : RunEnv) (st : FsState) :
    FsState × List CleanupAction × Bool :=
  if st.dir then
    if env.rmdir_ok then ({ st with dir := false }, [.rmdirWork], false)
    else (st, [], true)
  else (st, [], false)

/-- Second and third steps: `input.nec` unlink, then the rmdir. -/
def cleanupNec (env : RunEnv) (st : FsState) :
    FsState × List CleanupAction × Bool :=
  if st.nec then
    if env.unlink_nec_ok then
      let r := cleanupDir env { st with nec := false }
      (r.1, .unlinkNec :: r.2.1, r.2.2)
    else (st, [], true)
  else cleanupDir env st

/-- The whole `finally` block: remove `input.out`, then `input.nec`, then
the workdir; the single `except OSError` stops at the first failing step
and only logs (the boolean flag). -/
def cleanup (env : RunEnv) (st : FsState) :
    FsState × List CleanupAction × Bool :=
  if st.out then
    if env.unlink_out_ok then
      let r := cleanupNec env { st with out := false }
      (r.1, .unlinkOut :: r.2.1, r.2.2)
    else (st, [], true)
  else cleanupNec env st

/-- The `try` body of `run_nec2c` (nec_runner.py lines 48-111), returning
its result together with the filesystem state it leaves behind. -/
def runBody (env : RunEnv) : RunResult × FsState :=
  if ¬ env.mkdir_ok then (.osError, ⟨false, false, false⟩)
  else if ¬ env.write_ok then (.osError, ⟨true, false, false⟩)
  else
    match env.proc with
    | none => (.errTimeout, ⟨true, true, env.creates_out⟩)
    | some (returncode, _, stderr) =>
      let st : FsState := ⟨true, true, env.creates_out⟩
      if returncode ≠ 0 then (.errNonZero returncode (takeChars 500 stderr), st)
      else if ¬ env.creates_out then (.errNoOutput (takeChars 500 stderr), st)
      else if containsSub "GEOMETRY DATA ERROR" env.out_content then
        (.errGeometry, st)
      else if containsSub "SEGMENT DATA ERROR" env.out_content then
        (.errSegment, st)
      else (.ok env.out_content, st)

/-- Function `run_nec2c`: run the body, then always run the `finally` cleanup;
the call's result is the body's result (a cleanup failure is logged, never
raised), and the cleanup trace and final filesystem state are exposed. -/
def run_nec2c (env : RunEnv) :
    RunResult × FsState × List CleanupAction × Bool :=
  let b := runBody env
  let c := cleanup env b.2
  (b.1, c.1, c.2.1, c.2.2)

theorem cleanup_ordered (env : RunEnv) (st : FsState) :
    (cleanup env st).2.1.Sublist
      [CleanupAction.unlinkOut, .unlinkNec, .rmdirWork] := by
  rcases st with ⟨d, n, o⟩
  cases d <;> cases n <;> cases o <;>
    simp [cleanup, cleanupNec, cleanupDir] <;>
    by_cases h1 : env.unlink_out_ok <;>
    by_cases h2 : env.unlink_nec_ok <;>
    by_cases h3 : env.rmdir_ok <;>
    simp [h1, h2, h3]

theorem cleanup_no_failure_empties (env : RunEnv) (st : FsState)
    (h : (cleanup env st).2.2 = false) :
    (cleanup env st).1 = ⟨false, false, false⟩ := by
  rcases st with ⟨d, n, o⟩
  cases d <;> cases n <;> cases o <;>
    by_cases h1 : env.unlink_out_ok <;>
    by_cases h2 : env.unlink_nec_ok <;>
    by_cases h3 : env.rmdir_ok <;>
    simp_all [cleanup, cleanupNec, cleanupDir]

theorem cleanup_all_ok (env : RunEnv) (st : FsState)
    (h1 : env.unlink_out_ok = true) (h2 : env.unlink_nec_ok = true)
    (h3 : env.rmdir_ok = true) :
    (cleanup env st).1 = ⟨false, false, false⟩ ∧
    (cleanup env st).2.2 = false := by
  rcases st with ⟨d, n, o⟩
  cases d <;> cases n <;> cases o <;>
    simp_all [cleanup, cleanupNec, cleanupDir]

/-- C2: On every run — normal return, non-zero exit, missing output
file, geometry/segment error, timeout, even an `OSError` from setup — the
`finally` cleanup runs: its removal attempts happen in the fixed order
`input.out`, `input.nec`, workdir (the trace is an ordered sub-sequence
of that sequence); a cleanup failure is only recorded, never changes the
call's result; and when the cleanup operations succeed none of the
per-run files remain. -/
theorem nec_runner_cleanup_c2 (env : RunEnv) :
    (run_nec2c env).1 = (runBody env).1 ∧
    (run_nec2c env).2.2.1.Sublist
      [CleanupAction.unlinkOut, .unlinkNec, .rmdirWork] ∧
    ((run_nec2c env).2.2.2 = false →
      (run_nec2c env).2.1 = ⟨false, false, false⟩) ∧
    (env.unlink_out_ok = true → env.unlink_nec_ok = true →
      env.rmdir_ok = true →
      (run_nec2c env).2.1 = ⟨false, false, false⟩ ∧
      (run_nec2c env).2.2.2 = false) := by
  refine ⟨rfl, cleanup_ordered env _, ?_, ?_⟩
  · intro h
    exact cleanup_no_failure_empties env _ h
  · intro h1 h2 h3
    exact cleanup_all_ok env _ h1 h2 h3

/-- A run whose cleanup fully succeeds after a normal solver exit. -/
def okRunEnv : RunEnv :=
  ⟨true, true, some (0, "", ""), true, "output text", true, true, true⟩

theorem nec_runner_cleanup_c2_witness :
    (run_nec2c okRunEnv).2.2.2 = false ∧
    okRunEnv.unlink_out_ok = true ∧
    (run_nec2c okRunEnv).2.1 = ⟨false, false, false⟩ :=
  ⟨((nec_runner_cleanup_c2 okRunEnv).2.2.2 rfl rfl rfl).2, rfl,
    ((nec_runner_cleanup_c2 okRunEnv).2.2.2 rfl rfl rfl).1⟩

/-- The last `n` characters of a string (the spec's "last 500 bytes" of
stderr; the output is ASCII so bytes and characters agree). -/
def lastChars (n : ℕ) (s : String) : String :=
  String.mk (s.data.drop (s.data.length - n))

/-- A non-zero exit whose stderr is 501 characters long, so that its
first 500 and last 500 characters differ. -/
def longStderrEnv : RunEnv :=
  ⟨true, true, some (1, "", String.mk ('b' :: List.replicate 500 'a')),
    false, "", true, true, true⟩

/-- C5 counterexample: On a non-zero exit with a 501-character
stderr, the error payload produced by `run_nec2c` is `stderr[:500]` — the
FIRST 500 characters — which differs from the last 500 characters the
claim promises. -/
theorem nonzero_exit_c5_counterexample :
    (run_nec2c longStderrEnv).1 =
      .errNonZero 1 (takeChars 500 (String.mk ('b' :: List.replicate 500 'a'))) ∧
    takeChars 500 (String.mk ('b' :: List.replicate 500 'a')) ≠
      lastChars 500 (String.mk ('b' :: List.replicate 500 'a')) := by
  constructor
  · rfl
  · have e1 : takeChars 500 (String.mk ('b' :: List.replicate 500 'a')) =
        String.mk ('b' :: List.replicate 499 'a') := by
      unfold takeChars
      rw [show (500 : ℕ) = 499 + 1 from rfl]
      rw [List.take_succ_cons, List.take_replicate]
      norm_num
    have e2 : lastChars 500 (String.mk ('b' :: List.replicate 500 'a')) =
        String.mk (List.replicate 500 'a') := by
      unfold lastChars
      have hlen : ('b' :: List.replicate 500 'a').length - 500 = 1 := by
        rw [List.length_cons, List.length_replicate]
      rw [hlen]
      rfl
    rw [e1, e2]
    intro h
    have hdata := congrArg String.data h
    simp only at hdata
    rw [show List.replicate 500 'a' = 'a' :: List.replicate 499 'a' from rfl]
      at hdata
    have : 'b' = 'a' := (List.cons.injEq _ _ _ _ ▸ hdata).1
    exact absurd this (by decide)

/-- C5 amended: Whenever the solver process exits with a non-zero
code (after a successful setup), `run_nec2c` fails with the non-zero-exit
error carrying that return code, and the stderr payload is the FIRST 500
characters of the process's stderr (`result.stderr[:500]`), not the last
500. -/
theorem nonzero_exit_c5_amended (env : RunEnv) (code : ℤ) (out err : String)
    (hm : env.mkdir_ok = true) (hw : env.write_ok = true)
    (hp : env.proc = some (code, out, err)) (hc : code ≠ 0) :
    (run_nec2c env).1 = .errNonZero code (takeChars 500 err) := by
  have hbody : (runBody env).1 = .errNonZero code (takeChars 500 err) := by
    simp [runBody, hm, hw, hp, hc]
  rw [(nec_runner_cleanup_c2 env).1, hbody]

/-- A plain failing run with short stderr. -/
def shortStderrEnv : RunEnv :=
  ⟨true, true, some (2, "", "boom"), false, "", true, true, true⟩

theorem nonzero_exit_c5_amended_witness :
    shortStderrEnv.mkdir_ok = true ∧
    shortStderrEnv.proc = some (2, "", "boom") ∧ (2 : ℤ) ≠ 0 ∧
    (run_nec2c shortStderrEnv).1 = .errNonZero 2 (takeChars 500 "boom") :=
  ⟨rfl, rfl, by decide,
    nonzero_exit_c5_amended shortStderrEnv 2 "" "boom" rfl rfl rfl
      (by decide)⟩

/-! ## Result data model (models/results.py)

Parsed numeric values are embedded as rationals (decimal text parses to
exact rationals); the derived `swr_50` goes through `compute_swr` and so
lives in ℝ. -/

structure Impedance where
  real : ℚ
  imag : ℚ
  deriving DecidableEq, Repr

structure SegmentCurrent where
  tag : ℤ
  segment : ℤ
  x : ℚ
  y : ℚ
  z : ℚ
  current_real : ℚ
  current_imag : ℚ
  current_magnitude : ℚ
  current_phase_deg : ℚ
  deriving DecidableEq, Repr

structure PatternData where
  theta_start : ℚ
  theta_step : ℚ
  theta_count : ℤ
  phi_start : ℚ
  phi_step : ℚ
  phi_count : ℤ
  gain_dbi : List (List ℚ)
  deriving DecidableEq, Repr

structure FrequencyResult where
  frequency_mhz : ℚ
  impedance : Impedance
  swr_50 : ℝ
  gain_max_dbi : ℚ
  gain_max_theta : ℚ
  gain_max_phi : ℚ
  front_to_back_db : Option ℚ
  beamwidth_e_deg : Option ℚ
  beamwidth_h_deg : Option ℚ
  efficiency_percent : Option ℚ
  pattern : Option PatternData
  currents : Option (List SegmentCurrent)

/-! ## Output parsing helpers (simulation/nec_output.py) -/

/-- Python float `%` (modulo with the divisor's sign, via floor division). -/
def qmod (a b : ℚ) : ℚ := a - b * ⌊a / b⌋

/-- In-range two-dimensional assignment `grid[i][j] = v`. -/
def setGrid : List (List ℚ) → ℕ → ℕ → ℚ → List (List ℚ)
  | [], _, _, _ => []
  | row :: rest, 0, j, v => row.set j v :: rest
  | row :: rest, i + 1, j, v => row :: setGrid rest i j v

/-- One iteration of the gain-grid fill loop of `_build_frequency_result`
(lines 384-392): compute rounded indices, store in-range samples, track
the running maximum and its angles. -/
def gridStep (n_theta n_phi : ℤ) (theta_start theta_step phi_start phi_step : ℚ)
    (acc : List (List ℚ) × ℚ × ℚ × ℚ) (s : ℚ × ℚ × ℚ) :
    List (List ℚ) × ℚ × ℚ × ℚ :=
  let tidx : ℤ := rndEven ((s.1 - theta_start) / theta_step)
  let pidx : ℤ := rndEven ((s.2.1 - phi_start) / phi_step)
  if 0 ≤ tidx ∧ tidx < n_theta ∧ 0 ≤ pidx ∧ pidx < n_phi then
    let grid := setGrid acc.1 tidx.toNat pidx.toNat s.2.2
    if s.2.2 > acc.2.1 then (grid, s.2.2, s.1, s.2.1)
    else (grid, acc.2.1, acc.2.2.1, acc.2.2.2)
  else acc

/-- The whole grid fill: start from an `n_theta × n_phi` grid of `-999.99`
sentinels and a `-999.99` running maximum at angles `(0, 0)`. -/
def gridFold (n_theta n_phi : ℤ)
    (theta_start theta_step phi_start phi_step : ℚ)
    (pattern_data : List (ℚ × ℚ × ℚ)) : List (List ℚ) × ℚ × ℚ × ℚ :=
  pattern_data.foldl (gridStep n_theta n_phi theta_start theta_step phi_start phi_step)
    (List.replicate n_theta.toNat (List.replicate n_phi.toNat (-999.99 : ℚ)),
      -999.99, 0, 0)

/-- The back-lobe scan of `_build_frequency_result` (lines 408-412): the
running maximum gain over all pattern samples within `0.6` of a step of
`(θ_max, back_phi)`, starting from the `-999.99` sentinel. -/
def backGainFold (gain_max_theta back_phi theta_step phi_step : ℚ)
    (pattern_data : List (ℚ × ℚ × ℚ)) : ℚ :=
  pattern_data.foldl (fun bg s =>
    if |s.1 - gain_max_theta| < theta_step * 0.6 ∧
        |s.2.1 - back_phi| < phi_step * 0.6 then
      max bg s.2.2
    else bg) (-999.99)

/-- Python dict assignment `m[k] = v`: replace in place if the key is
present, else append (insertion order preserved). -/
def dictInsert (m : List ((ℚ × ℚ) × ℚ)) (k : ℚ × ℚ) (v : ℚ) :
    List ((ℚ × ℚ) × ℚ) :=
  match m with
  | [] => [(k, v)]
  | (k0, v0) :: rest =>
    if k0 = k then (k0, v) :: rest else (k0, v0) :: dictInsert rest k v

/-- The `gain_map` dict: keys are the sample angles rounded to 2 decimals. -/
def buildGainMap (pattern_data : List (ℚ × ℚ × ℚ)) : List ((ℚ × ℚ) × ℚ) :=
  pattern_data.foldl
    (fun m s => dictInsert m (roundTo 2 s.1, roundTo 2 s.2.1) s.2.2) []

/-- Stable insertion keeping ascending order on the angle (Python's
`list.sort` is stable). -/
def insertSorted (x : ℚ × ℚ) : List (ℚ × ℚ) → List (ℚ × ℚ)
  | [] => [x]
  | y :: rest => if x.1 < y.1 then x :: y :: rest else y :: insertSorted x rest

def sortByAngle (l : List (ℚ × ℚ)) : List (ℚ × ℚ) :=
  l.foldl (fun acc x => insertSorted x acc) []

/-- First index attaining the maximal gain (`max(range(n), key=...)`). -/
def argmaxIdx (l : List (ℚ × ℚ)) : ℕ :=
  (List.range l.length).foldl (fun best i =>
    if (l.getD i (0, 0)).2 > (l.getD best (0, 0)).2 then i else best) 0

/-- Left scan of `_find_beamwidth_from_cut` (lines 138-150): walk from
the peak down to index 1 looking for the first `-3 dB` crossing,
interpolating linearly. -/
def searchLeft (l : List (ℚ × ℚ)) (threshold : ℚ) : ℕ → Option ℚ
  | 0 => none
  | i + 1 =>
    let a0g0 := l.getD i (0, 0)
    let a1g1 := l.getD (i + 1) (0, 0)
    if a0g0.2 < threshold ∧ threshold ≤ a1g1.2 then
      let dg := a1g1.2 - a0g0.2
      if |dg| > 1e-6 then
        some (a0g0.1 + (threshold - a0g0.2) / dg * (a1g1.1 - a0g0.1))
      else some a0g0.1
    else searchLeft l threshold i

/-- Right scan of `_find_beamwidth_from_cut` (lines 153-164), with the
remaining iteration count as fuel (`range(peak_idx, n-1)`). -/
def searchRight (l : List (ℚ × ℚ)) (threshold : ℚ) : ℕ → ℕ → Option ℚ
  | _, 0 => none
  | i, fuel + 1 =>
    let a0g0 := l.getD i (0, 0)
    let a1g1 := l.getD (i + 1) (0, 0)
    if a1g1.2 < threshold ∧ threshold ≤ a0g0.2 then
      let dg := a1g1.2 - a0g0.2
      if |dg| > 1e-6 then
        some (a0g0.1 + (threshold - a0g0.2) / dg * (a1g1.1 - a0g0.1))
      else some a1g1.1
    else searchRight l threshold (i + 1) fuel

/-- Function `_find_beamwidth_from_cut` (nec_output.py lines 119-170). -/
def find_beamwidth_from_cut (sorted_gains : List (ℚ × ℚ)) (threshold : ℚ) :
    Option ℚ :=
  if sorted_gains.length < 3 then none
  else
    let peak_idx := argmaxIdx sorted_gains
    let peak_gain := (sorted_gains.getD peak_idx (0, 0)).2
    if peak_gain ≤ -999.0 then none
    else
      let left := searchLeft sorted_gains threshold peak_idx
      let right := searchRight sorted_gains threshold peak_idx
        (sorted_gains.length - 1 - peak_idx)
      match left, right with
      | some la, some ra => some (roundTo 1 |ra - la|)
      | _, _ => none

/-- Function `_compute_beamwidth` (nec_output.py lines 73-116). -/
def compute_beamwidth (pattern_data : List (ℚ × ℚ × ℚ))
    (gain_max_dbi gain_max_theta gain_max_phi theta_step phi_step : ℚ) :
    Option ℚ × Option ℚ :=
  if gain_max_dbi ≤ -999.0 then (none, none)
  else
    let threshold := gain_max_dbi - 3
    let gain_map := buildGainMap pattern_data
    let e_cut := sortByAngle ((gain_map.filter
      (fun kv => decide (|kv.1.2 - gain_max_phi| < phi_step * 0.6))).map
        (fun kv => (kv.1.1, kv.2)))
    let h_cut := sortByAngle ((gain_map.filter
      (fun kv => decide (|kv.1.1 - gain_max_theta| < theta_step * 0.6))).map
        (fun kv => (kv.1.2, kv.2)))
    (find_beamwidth_from_cut e_cut threshold,
      find_beamwidth_from_cut h_cut threshold)

/-- Function `_build_frequency_result` (nec_output.py lines 357-445). -/
noncomputable def build_frequency_result (freq_mhz : ℚ) (impedance : Impedance)
    (pattern_data : List (ℚ × ℚ × ℚ)) (n_theta n_phi : ℤ)
    (theta_start theta_step phi_start phi_step : ℚ)
    (power_radiated power_input : Option ℚ)
    (currents : Option (List SegmentCurrent)) : FrequencyResult :=
  let swr := compute_swr (impedance.real : ℝ) (impedance.imag : ℝ)
  let filled :=
    gridFold n_theta n_phi theta_start theta_step phi_start phi_step pattern_data
  let pattern : Option PatternData :=
    if pattern_data.isEmpty then none
    else some ⟨theta_start, theta_step, n_theta, phi_start, phi_step, n_phi,
      filled.1⟩
  let gain_max_dbi : ℚ := if pattern_data.isEmpty then -999.99 else filled.2.1
  let gain_max_theta : ℚ := if pattern_data.isEmpty then 0 else filled.2.2.1
  let gain_max_phi : ℚ := if pattern_data.isEmpty then 0 else filled.2.2.2
  let front_to_back : Option ℚ :=
    if ¬ pattern_data.isEmpty ∧ gain_max_dbi > -999.0 then
      let back_phi := qmod (gain_max_phi + 180) 360
      let back_gain :=
        backGainFold gain_max_theta back_phi theta_step phi_step pattern_data
      if back_gain > -999.0 then some (roundTo 2 (gain_max_dbi - back_gain))
      else none
    else none
  let bw : Option ℚ × Option ℚ :=
    if ¬ pattern_data.isEmpty ∧ gain_max_dbi > -999.0 then
      compute_beamwidth pattern_data gain_max_dbi gain_max_theta gain_max_phi
        theta_step phi_step
    else (none, none)
  let efficiency : Option ℚ :=
    match power_radiated, power_input with
    | some pr, some pin =>
      if pin > 1e-30 then some (roundTo 1 (min (pr / pin * 100) 100)) else none
    | _, _ => none
  { frequency_mhz := roundTo 6 freq_mhz
    impedance := impedance
    swr_50 := swr
    gain_max_dbi := if gain_max_dbi > -999.0 then roundTo 2 gain_max_dbi
      else -999.99
    gain_max_theta := gain_max_theta
    gain_max_phi := gain_max_phi
    front_to_back_db := front_to_back
    beamwidth_e_deg := bw.1
    beamwidth_h_deg := bw.2
    efficiency_percent := efficiency
    pattern := pattern
    currents := match currents with
      | some l => if l.isEmpty then none else some l
      | none => none }

/-! ## The output scanner (nec_output.py, `parse_nec_output`)

One physical line of solver output is abstracted into the results of the
per-line regex probes the scanner performs (`ParsedLine`): which headers
the line matches, the captures the code actually reads when a data regex
matches (groups 7/8 of the impedance row, groups 1/2/5 of a pattern row,
all used groups of a currents row), the power-budget captures, and
whether the line is blank.  The scanner itself — the state machine over
those probes, with its exact `continue`/fall-through structure — is
embedded line by line. -/

structure ParsedLine where
  freq : Option ℚ
  input_params : Bool
  imp : Option (ℚ × ℚ)
  curr_header : Bool
  curr : Option (ℤ × ℤ × ℚ × ℚ × ℚ × ℚ × ℚ × ℚ × ℚ)
  pattern_header : Bool
  pat : Option (ℚ × ℚ × ℚ)
  power_rad : Option ℚ
  power_in : Option ℚ
  blank : Bool

structure ParseGeom where
  n_theta : ℤ
  n_phi : ℤ
  theta_start : ℚ
  theta_step : ℚ
  phi_start : ℚ
  phi_step : ℚ

structure ParseState where
  results : List FrequencyResult
  current_freq : Option ℚ
  current_impedance : Option Impedance
  current_pattern_data : List (ℚ × ℚ × ℚ)
  current_power_radiated : Option ℚ
  current_power_input : Option ℚ
  current_currents : List SegmentCurrent
  in_input_params : Bool
  in_pattern_section : Bool
  in_current_section : Bool
  skip_header_lines : ℕ

def initState : ParseState := ⟨[], none, none, [], none, none, [], false, false, false, 0⟩

/-- A parsed currents row becomes a `SegmentCurrent` (lines 283-304). -/
def mkSegmentCurrent (c : ℤ × ℤ × ℚ × ℚ × ℚ × ℚ × ℚ × ℚ × ℚ) :
    SegmentCurrent :=
  ⟨c.2.1, c.1, roundTo 6 c.2.2.1, roundTo 6 c.2.2.2.1, roundTo 6 c.2.2.2.2.1,
    roundTo 8 c.2.2.2.2.2.1, roundTo 8 c.2.2.2.2.2.2.1,
    roundTo 8 c.2.2.2.2.2.2.2.1, roundTo 2 c.2.2.2.2.2.2.2.2⟩

/-- Emit the in-progress frequency block when both a frequency and an
impedance have been seen (lines 225-232 and 345-352). -/
noncomputable def flushState (cfg : ParseGeom) (compute_currents : Bool)
    (st : ParseState) : List FrequencyResult :=
  match st.current_freq, st.current_impedance with
  | some cf, some ci =>
    st.results ++ [build_frequency_result cf ci st.current_pattern_data
      cfg.n_theta cfg.n_phi cfg.theta_start cfg.theta_step cfg.phi_start
      cfg.phi_step st.current_power_radiated st.current_power_input
      (if compute_currents then some st.current_currents else none)]
  | _, _ => st.results

/-- Lines 253-267: the `in_input_params` block.  Returns the new state and
whether the iteration ended here (`continue`). -/
def phaseInput (st : ParseState) (ln : ParsedLine) : ParseState × Bool :=
  if st.in_input_params then
    if st.skip_header_lines > 0 then
      ({ st with skip_header_lines := st.skip_header_lines - 1 }, true)
    else
      match ln.imp with
      | some zz =>
        ({ st with
            current_impedance := some ⟨roundTo 4 zz.1, roundTo 4 zz.2⟩
            in_input_params := false }, true)
      | none => if ln.blank then (st, true) else (st, false)
  else (st, false)

/-- Lines 277-307: the `in_current_section` block; a blank line leaves the
section and falls through. -/
def phaseCurr (st : ParseState) (ln : ParsedLine) : ParseState × Bool :=
  if st.in_current_section then
    if st.skip_header_lines > 0 then
      ({ st with skip_header_lines := st.skip_header_lines - 1 }, true)
    else
      match ln.curr with
      | some c =>
        ({ st with current_currents := st.current_currents ++ [mkSegmentCurrent c] },
          true)
      | none =>
        if ln.blank then ({ st with in_current_section := false }, false)
        else (st, false)
  else (st, false)

/-- Lines 317-331: the `in_pattern_section` block; a blank line leaves the
section and falls through. -/
def phasePat (st : ParseState) (ln : ParsedLine) : ParseState × Bool :=
  if st.in_pattern_section then
    if st.skip_header_lines > 0 then
      ({ st with skip_header_lines := st.skip_header_lines - 1 }, true)
    else
      match ln.pat with
      | some s =>
        ({ st with current_pattern_data := st.current_pattern_data ++ [s] }, true)
      | none =>
        if ln.blank then ({ st with in_pattern_section := false }, false)
        else (st, false)
  else (st, false)

/-- One iteration of the scan loop (lines 220-341), with the source's
exact check order and `continue`/fall-through structure. -/
noncomputable def parseLine (cfg : ParseGeom) (compute_currents : Bool)
    (st : ParseState) (ln : ParsedLine) : ParseState :=
  match ln.freq with
  | some f =>
    { results := flushState cfg compute_currents st
      current_freq := some f
      current_impedance := none
      current_pattern_data := []
      current_power_radiated := none
      current_power_input := none
      current_currents := []
      in_input_params := false
      in_pattern_section := false
      in_current_section := false
      skip_header_lines := st.skip_header_lines }
  | none =>
    if ln.input_params then
      { st with
          in_input_params := true
          in_pattern_section := false
          in_current_section := false
          skip_header_lines := 2 }
    else
      let r1 := phaseInput st ln
      if r1.2 then r1.1
      else if compute_currents ∧ ln.curr_header then
        { r1.1 with
            in_current_section := true
            in_pattern_section := false
            in_input_params := false
            skip_header_lines := 3 }
      else
        let r2 := phaseCurr r1.1 ln
        if r2.2 then r2.1
        else if ln.pattern_header then
          { r2.1 with
              in_pattern_section := true
              in_input_params := false
              in_current_section := false
              skip_header_lines := 3 }
        else
          let r3 := phasePat r2.1 ln
          if r3.2 then r3.1
          else
            match ln.power_rad with
            | some p => { r3.1 with current_power_radiated := some p }
            | none =>
              match ln.power_in with
              | some p => { r3.1 with current_power_input := some p }
              | none => r3.1

/-- Function `parse_nec_output` (nec_output.py lines 195-354): scan all lines, then
flush the last block. -/
noncomputable def parse_nec_output (cfg : ParseGeom) (compute_currents : Bool)
    (lines : List ParsedLine) : List FrequencyResult :=
  flushState cfg compute_currents
    (lines.foldl (parseLine cfg compute_currents) initState)

/-- C10: A frequency block whose impedance was parsed but which
contains no radiation-pattern samples yields a `FrequencyResult` with
`gain_max_dbi = -999.99`, `gain_max_theta = 0.0`, `gain_max_phi = 0.0`,
and `pattern`, `front_to_back_db`, `beamwidth_e_deg`, `beamwidth_h_deg`
all null. -/
theorem empty_pattern_c10 (freq_mhz : ℚ) (impedance : Impedance)
    (n_theta n_phi : ℤ) (theta_start theta_step phi_start phi_step : ℚ)
    (power_radiated power_input : Option ℚ)
    (currents : Option (List SegmentCurrent)) :
    (build_frequency_result freq_mhz impedance [] n_theta n_phi theta_start
      theta_step phi_start phi_step power_radiated power_input
      currents).gain_max_dbi = -999.99 ∧
    (build_frequency_result freq_mhz impedance [] n_theta n_phi theta_start
      theta_step phi_start phi_step power_radiated power_input
      currents).gain_max_theta = 0 ∧
    (build_frequency_result freq_mhz impedance [] n_theta n_phi theta_start
      theta_step phi_start phi_step power_radiated power_input
      currents).gain_max_phi = 0 ∧
    (build_frequency_result freq_mhz impedance [] n_theta n_phi theta_start
      theta_step phi_start phi_step power_radiated power_input
      currents).pattern = none ∧
    (build_frequency_result freq_mhz impedance [] n_theta n_phi theta_start
      theta_step phi_start phi_step power_radiated power_input
      currents).front_to_back_db = none ∧
    (build_frequency_result freq_mhz impedance [] n_theta n_phi theta_start
      theta_step phi_start phi_step power_radiated power_input
      currents).beamwidth_e_deg = none ∧
    (build_frequency_result freq_mhz impedance [] n_theta n_phi theta_start
      theta_step phi_start phi_step power_radiated power_input
      currents).beamwidth_h_deg = none := by
  have hgain : ¬ ((-999.99 : ℚ) > -999.0) := by norm_num
  refine ⟨?_, ?_, ?_, ?_, ?_, ?_, ?_⟩ <;>
    simp [build_frequency_result, hgain]

/-- The box predicate of the back-lobe scan. -/
def inBackBox (gain_max_theta back_phi theta_step phi_step : ℚ)
    (s : ℚ × ℚ × ℚ) : Bool :=
  decide (|s.1 - gain_max_theta| < theta_step * 0.6) &&
  decide (|s.2.1 - back_phi| < phi_step * 0.6)

theorem backGainFold_eq_filter_aux (tm bp ts ps : ℚ)
    (pd : List (ℚ × ℚ × ℚ)) (init : ℚ) :
    pd.foldl (fun bg s =>
        if |s.1 - tm| < ts * 0.6 ∧ |s.2.1 - bp| < ps * 0.6 then
          max bg s.2.2
        else bg) init =
      ((pd.filter (inBackBox tm bp ts ps)).map (fun s => s.2.2)).foldl max init := by
  induction pd generalizing init with
  | nil => rfl
  | cons a l ih =>
    by_cases h : |a.1 - tm| < ts * 0.6 ∧ |a.2.1 - bp| < ps * 0.6
    · have hb : inBackBox tm bp ts ps a = true := by
        simp [inBackBox, h.1, h.2]
      simp only [List.foldl_cons, if_pos h, List.filter_cons, hb, ite_true,
        List.map_cons]
      exact ih (max init a.2.2)
    · have hb : ¬ (inBackBox tm bp ts ps a = true) := by
        simp only [inBackBox, Bool.and_eq_true, decide_eq_true_eq]
        exact fun hc => h ⟨hc.1, hc.2⟩
      simp only [List.foldl_cons, if_neg h, List.filter_cons,
        Bool.not_eq_true] at *
      rw [if_neg (by simp [hb])]
      exact ih init

theorem backGainFold_eq_filter (tm bp ts ps : ℚ) (pd : List (ℚ × ℚ × ℚ)) :
    backGainFold tm bp ts ps pd =
      ((pd.filter (inBackBox tm bp ts ps)).map (fun s => s.2.2)).foldl max
        (-999.99) :=
  backGainFold_eq_filter_aux tm bp ts ps pd (-999.99)

theorem foldl_max_gt (l : List ℚ) (c : ℚ) :
    ∀ init : ℚ, (c < l.foldl max init ↔ c < init ∨ ∃ x ∈ l, c < x) := by
  induction l with
  | nil => intro init; simp
  | cons a t ih =>
    intro init
    rw [List.foldl_cons, ih (max init a)]
    constructor
    · rintro (h | h)
      · rcases lt_max_iff.mp h with h' | h'
        · exact Or.inl h'
        · exact Or.inr ⟨a, by simp, h'⟩
      · rcases h with ⟨x, hx, hc⟩
        exact Or.inr ⟨x, by simp [hx], hc⟩
    · rintro (h | h)
      · exact Or.inl (lt_max_iff.mpr (Or.inl h))
      · rcases h with ⟨x, hx, hc⟩
        rcases List.mem_cons.mp hx with rfl | hx'
        · exact Or.inl (lt_max_iff.mpr (Or.inr hc))
        · exact Or.inr ⟨x, hx', hc⟩

/-- Concrete evaluation of the grid fold on the C4 instance. -/
theorem gridFold_c4_eval :
    (gridFold 1 37 0 10 0 10 [((0 : ℚ), (0 : ℚ), (10 : ℚ)), (0, 185.5, 0)]).2 =
      (10, 0, 0) := by
  have h1 : rndEven (((0 : ℚ) - 0) / 10) = 0 := by
    have e : ((0 : ℚ) - 0) / 10 = ((0 : ℤ) : ℚ) := by norm_num
    rw [e, rndEven_intCast]
  have h2 : rndEven (((185.5 : ℚ) - 0) / 10) = 19 := by
    have e : ((185.5 : ℚ) - 0) / 10 = 18.55 := by norm_num
    rw [e]
    unfold rndEven
    have hf : Int.fract (18.55 : ℚ) = 0.55 := by
      rw [Int.fract]
      norm_num
    rw [hf, if_neg (by norm_num), round_eq]
    norm_num
  simp only [gridFold, List.foldl_cons, List.foldl_nil, gridStep, h1, h2]
  norm_num

/-- Concrete evaluation of the back-lobe fold on the C4 instance. -/
theorem backGainFold_c4_eval :
    backGainFold 0 (qmod ((0 : ℚ) + 180) 360) 10 10
      [((0 : ℚ), (0 : ℚ), (10 : ℚ)), (0, 185.5, 0)] = 0 := by
  have hq : qmod ((0 : ℚ) + 180) 360 = 180 := by
    unfold qmod
    norm_num
  rw [hq]
  simp only [backGainFold, List.foldl_cons, List.foldl_nil]
  norm_num [max_def]
  rw [abs_of_nonneg (by norm_num : (0 : ℚ) ≤ 11 / 2)]
  norm_num

/-- C4 counterexample: With grid steps `Δθ = Δφ = 10`, maximum at
`(0°, 0°)` and a second sample at `(0°, 185.5°)`: no pattern sample (and
hence no populated grid cell) lies within half a grid step (`5°`) of the
back direction `(0°, 180°)`, so the claim demands a null
`front_to_back_db`; the code, which searches a `0.6`-step box (`6°`) and
takes the best gain in it, returns `some 10`. -/
theorem front_to_back_c4_counterexample :
    (build_frequency_result 14 ⟨50, 0⟩ [(0, 0, 10), (0, 185.5, 0)] 1 37
      0 10 0 10 none none none).front_to_back_db = some 10 ∧
    ¬ (|(0 : ℚ) - 0| ≤ 10 / 2 ∧ |(0 : ℚ) - 180| ≤ 10 / 2) ∧
    ¬ (|(0 : ℚ) - 0| ≤ 10 / 2 ∧ |(185.5 : ℚ) - 180| ≤ 10 / 2) := by
  refine ⟨?_, ?_, ?_⟩
  · simp only [build_frequency_result, gridFold_c4_eval, List.isEmpty_cons,
      Bool.false_eq_true, if_false, not_false_iff, true_and]
    rw [if_pos (by norm_num : (10 : ℚ) > -999.0),
      backGainFold_c4_eval,
      if_pos (by norm_num : (0 : ℚ) > -999.0)]
    rw [show (10 : ℚ) - 0 = 10 from by norm_num]
    rw [show roundTo 2 (10 : ℚ) = 10 from by
      rw [roundTo_ofInt 2 1000 10 (by norm_num)]; norm_num]
  · rintro ⟨h1, h2⟩
    rw [abs_le] at h2
    norm_num at h2
  · rintro ⟨h1, h2⟩
    rw [abs_le] at h2
    norm_num at h2

/-- C4 amended: For a block with pattern samples and a valid gain
maximum, `front_to_back_db` is `max_gain − (the best gain among ALL
pattern samples lying strictly within `0.6` of a grid step of
`(θ_max, (φ_max+180) mod 360)` in both angles)`, rounded to 2 decimals —
not the single closest grid cell within half a step — and it is null
exactly when no such sample has gain above the `-999` sentinel. -/
theorem front_to_back_c4_amended (freq : ℚ) (imp : Impedance)
    (pd : List (ℚ × ℚ × ℚ)) (nθ nφ : ℤ) (θ0 θs φ0 φs : ℚ)
    (pr pin : Option ℚ) (cur : Option (List SegmentCurrent))
    (hne : pd ≠ [])
    (hmax : (gridFold nθ nφ θ0 θs φ0 φs pd).2.1 > -999.0) :
    (build_frequency_result freq imp pd nθ nφ θ0 θs φ0 φs pr pin
        cur).front_to_back_db =
      (if (pd.filter (inBackBox (gridFold nθ nφ θ0 θs φ0 φs pd).2.2.1
            (qmod ((gridFold nθ nφ θ0 θs φ0 φs pd).2.2.2 + 180) 360) θs φs)).any
          (fun s => decide ((-999.0 : ℚ) < s.2.2)) then
        some (roundTo 2 ((gridFold nθ nφ θ0 θs φ0 φs pd).2.1 -
          ((pd.filter (inBackBox (gridFold nθ nφ θ0 θs φ0 φs pd).2.2.1
              (qmod ((gridFold nθ nφ θ0 θs φ0 φs pd).2.2.2 + 180) 360) θs φs)).map
            (fun s => s.2.2)).foldl max (-999.99)))
      else none) := by
  have hne' : pd.isEmpty = false := by
    cases pd with
    | nil => exact absurd rfl hne
    | cons a l => rfl
  simp only [build_frequency_result, hne', Bool.false_eq_true, if_false,
    not_false_iff, true_and]
  rw [if_pos hmax, backGainFold_eq_filter]
  by_cases hany : (pd.filter (inBackBox (gridFold nθ nφ θ0 θs φ0 φs pd).2.2.1
      (qmod ((gridFold nθ nφ θ0 θs φ0 φs pd).2.2.2 + 180) 360) θs φs)).any
        (fun s => decide ((-999.0 : ℚ) < s.2.2)) = true
  · have hgt : ((pd.filter (inBackBox (gridFold nθ nφ θ0 θs φ0 φs pd).2.2.1
        (qmod ((gridFold nθ nφ θ0 θs φ0 φs pd).2.2.2 + 180) 360) θs φs)).map
          (fun s => s.2.2)).foldl max (-999.99) > -999.0 := by
      rw [gt_iff_lt, foldl_max_gt]
      right
      rw [List.any_eq_true] at hany
      rcases hany with ⟨s, hs, hgt'⟩
      exact ⟨s.2.2, List.mem_map_of_mem _ hs, by simpa using hgt'⟩
    rw [if_pos hgt, if_pos hany]
  · have hngt : ¬ (((pd.filter (inBackBox (gridFold nθ nφ θ0 θs φ0 φs pd).2.2.1
        (qmod ((gridFold nθ nφ θ0 θs φ0 φs pd).2.2.2 + 180) 360) θs φs)).map
          (fun s => s.2.2)).foldl max (-999.99) > -999.0) := by
      rw [gt_iff_lt, foldl_max_gt]
      rintro (h | ⟨x, hx, hgt'⟩)
      · norm_num at h
      · apply hany
        rw [List.any_eq_true]
        rcases List.mem_map.mp hx with ⟨s, hs, rfl⟩
        exact ⟨s, hs, by simpa using hgt'⟩
    rw [if_neg hngt, if_neg (by simpa using hany)]

theorem front_to_back_c4_amended_witness :
    ([((0 : ℚ), (0 : ℚ), (10 : ℚ)), (0, 185.5, 0)] ≠
        ([] : List (ℚ × ℚ × ℚ))) ∧
    (gridFold 1 37 0 10 0 10 [(0, 0, 10), (0, 185.5, 0)]).2.1 > -999.0 ∧
    (build_frequency_result 14 ⟨50, 0⟩ [(0, 0, 10), (0, 185.5, 0)] 1 37
        0 10 0 10 none none none).front_to_back_db =
      (if ((([((0 : ℚ), (0 : ℚ), (10 : ℚ)), (0, 185.5, 0)]).filter
            (inBackBox (gridFold 1 37 0 10 0 10 [(0, 0, 10), (0, 185.5, 0)]).2.2.1
              (qmod ((gridFold 1 37 0 10 0 10 [(0, 0, 10), (0, 185.5, 0)]).2.2.2 +
                180) 360) 10 10)).any
          (fun s => decide ((-999.0 : ℚ) < s.2.2))) then
        some (roundTo 2 ((gridFold 1 37 0 10 0 10 [(0, 0, 10), (0, 185.5, 0)]).2.1 -
          ((([((0 : ℚ), (0 : ℚ), (10 : ℚ)), (0, 185.5, 0)]).filter
              (inBackBox (gridFold 1 37 0 10 0 10 [(0, 0, 10), (0, 185.5, 0)]).2.2.1
                (qmod ((gridFold 1 37 0 10 0 10 [(0, 0, 10), (0, 185.5, 0)]).2.2.2 +
                  180) 360) 10 10)).map
            (fun s => s.2.2)).foldl max (-999.99)))
      else none) := by
  have hmax : (gridFold 1 37 0 10 0 10 [(0, 0, 10), (0, 185.5, 0)]).2.1 >
      -999.0 := by
    rw [show (gridFold 1 37 0 10 0 10 [(0, 0, 10), (0, 185.5, 0)]).2.1 =
        ((gridFold 1 37 0 10 0 10 [(0, 0, 10), (0, 185.5, 0)]).2).1 from rfl,
      gridFold_c4_eval]
    norm_num
  exact ⟨by simp, hmax,
    front_to_back_c4_amended 14 ⟨50, 0⟩ [(0, 0, 10), (0, 185.5, 0)] 1 37
      0 10 0 10 none none none (by simp) hmax⟩

/-! ## C9: which frequency headers produce a result

`scanImpAux` is a small standalone scanner that answers one question
about the remainder of the current frequency block: will the state
machine parse an impedance row before the next frequency header (or end
of input)?  It tracks only what that question depends on — the
`in_input_params` flag and the pending skip count — following the same
check order and fall-through as the scan loop. -/

def scanImpAux (cc : Bool) : List ParsedLine → Bool → ℕ → Bool
  | [], _, _ => false
  | ln :: rest, in_inp, skip =>
    match ln.freq with
    | some _ => false
    | none =>
      if ln.input_params then scanImpAux cc rest true 2
      else if in_inp then
        if skip > 0 then scanImpAux cc rest true (skip - 1)
        else if ln.imp.isSome then true
        else if ln.blank then scanImpAux cc rest true 0
        else if cc ∧ ln.curr_header then scanImpAux cc rest false 3
        else if ln.pattern_header then scanImpAux cc rest false 3
        else scanImpAux cc rest true 0
      else
        if cc ∧ ln.curr_header then scanImpAux cc rest false 3
        else if ln.pattern_header then scanImpAux cc rest false 3
        else scanImpAux cc rest false skip

/-- The simple specification of emission: one result per frequency header
whose block parses an impedance row before the next header or EOF. -/
def countEmitted (cc : Bool) : List ParsedLine → ℕ
  | [] => 0
  | ln :: rest =>
    match ln.freq with
    | some _ =>
      (if scanImpAux cc rest false 0 then 1 else 0) + countEmitted cc rest
    | none => countEmitted cc rest

/-- Outside the input-parameters section the pending skip count cannot
influence impedance detection (any path back into the section resets
it). -/
theorem scanImpAux_skip_irrel (cc : Bool) :
    ∀ (lines : List ParsedLine) (s s' : ℕ),
      scanImpAux cc lines false s = scanImpAux cc lines false s' := by
  intro lines
  induction lines with
  | nil => intro s s'; rfl
  | cons ln rest ih =>
    intro s s'
    cases hfreq : ln.freq with
    | some f => simp [scanImpAux, hfreq]
    | none =>
      by_cases hip : ln.input_params
      · simp [scanImpAux, hfreq, hip]
      · by_cases hch : cc ∧ ln.curr_header
        · simp [scanImpAux, hfreq, hip, hch]
        · by_cases hph : ln.pattern_header
          · simp [scanImpAux, hfreq, hip, hch, hph]
          · simp only [scanImpAux, hfreq, hip, if_false, if_neg hch,
              if_neg hph, ite_false]
            exact ih s s'

theorem scanImpAux_false_zero (cc : Bool) (lines : List ParsedLine) (s : ℕ) :
    scanImpAux cc lines false s = scanImpAux cc lines false 0 :=
  scanImpAux_skip_irrel cc lines s 0

/-- The contribution of the in-progress block to the final result count:
nothing without a frequency; otherwise one result exactly when an
impedance is already recorded or the scanner will still find one. -/
def blockContrib (cc : Bool) (lines : List ParsedLine) (st : ParseState) : ℕ :=
  match st.current_freq with
  | none => 0
  | some _ =>
    if st.current_impedance.isSome ||
        scanImpAux cc lines st.in_input_params st.skip_header_lines then 1
    else 0

/-- Machine invariant: inside the input-parameters section the other two
section flags are off (every transition that raises one flag lowers the
others). -/
def flagsOk (st : ParseState) : Prop :=
  st.in_input_params = true →
    st.in_current_section = false ∧ st.in_pattern_section = false

theorem flagsOk_initState : flagsOk initState := by
  intro h
  cases h

theorem flagsOk_parseLine_freq (cfg : ParseGeom) (cc : Bool)
    (st : ParseState) (ln : ParsedLine) (f : ℚ) (hfq : ln.freq = some f) :
    flagsOk (parseLine cfg cc st ln) := by
  simp [parseLine, hfq, flagsOk]

theorem flagsOk_parseLine_ipheader (cfg : ParseGeom) (cc : Bool)
    (st : ParseState) (ln : ParsedLine) (hfq : ln.freq = none)
    (hip : ln.input_params = true) : flagsOk (parseLine cfg cc st ln) := by
  simp [parseLine, hfq, hip, flagsOk]

/-- Single-step preservation: a non-header line neither changes the
emitted results, nor the current frequency, nor the answer to "will this
block emit"; it also preserves the section-flag invariant.  The scanner
and the machine stay in lockstep through every `continue` and
fall-through path of the loop body. -/
theorem parseLine_scan_step (cfg : ParseGeom) (cc : Bool) (st : ParseState)
    (ln : ParsedLine) (rest : List ParsedLine) (hflags : flagsOk st)
    (hfreq : ln.freq = none) (hip : ln.input_params = false) :
    (parseLine cfg cc st ln).results = st.results ∧
    (parseLine cfg cc st ln).current_freq = st.current_freq ∧
    ((parseLine cfg cc st ln).current_impedance.isSome ||
        scanImpAux cc rest (parseLine cfg cc st ln).in_input_params
          (parseLine cfg cc st ln).skip_header_lines) =
      (st.current_impedance.isSome ||
        scanImpAux cc (ln :: rest) st.in_input_params st.skip_header_lines) ∧
    flagsOk (parseLine cfg cc st ln) := by
  by_cases hinp : st.in_input_params
  · obtain ⟨hic0, hipat0⟩ := hflags hinp
    cases hsk : st.skip_header_lines with
    | zero =>
      cases himp : ln.imp with
      | some zz =>
        simp [parseLine, phaseInput, scanImpAux, flagsOk, hfreq, hip, hinp,
          hsk, himp, hic0, hipat0]
      | none =>
        by_cases hblank : ln.blank
        · simp [parseLine, phaseInput, scanImpAux, flagsOk, hfreq, hip,
            hinp, hsk, himp, hblank, hic0, hipat0]
        · by_cases hch : cc ∧ ln.curr_header
          · simp [parseLine, phaseInput, scanImpAux, flagsOk, hfreq, hip,
              hinp, hsk, himp, hblank, hch]
          · by_cases hph : ln.pattern_header
            · simp [parseLine, phaseInput, phaseCurr, scanImpAux, flagsOk,
                hfreq, hip, hinp, hsk, himp, hblank, hch, hic0, hph]
            · cases hpr : ln.power_rad <;> cases hpi : ln.power_in <;>
                simp [parseLine, phaseInput, phaseCurr, phasePat,
                  scanImpAux, flagsOk, hfreq, hip, hinp, hsk, himp, hblank,
                  hch, hic0, hipat0, hph, hpr, hpi]
    | succ n =>
      simp [parseLine, phaseInput, scanImpAux, flagsOk, hfreq, hip, hinp,
        hsk, hic0, hipat0]
  · have hinp' : st.in_input_params = false := by simpa using hinp
    by_cases hch : cc ∧ ln.curr_header
    · simp [parseLine, phaseInput, scanImpAux, flagsOk, hfreq, hip, hinp',
        hch, scanImpAux_false_zero]
    · by_cases hic : st.in_current_section
      · cases hsk : st.skip_header_lines with
        | zero =>
          cases hcur : ln.curr with
          | some c =>
            simp [parseLine, phaseInput, phaseCurr, scanImpAux, flagsOk,
              hfreq, hip, hinp', hch, hic, hsk, hcur, scanImpAux_false_zero]
          | none =>
            by_cases hph : ln.pattern_header
            · by_cases hblank : ln.blank <;>
                simp [parseLine, phaseInput, phaseCurr, scanImpAux, flagsOk,
                  hfreq, hip, hinp', hch, hic, hsk, hcur, hph, hblank,
                  scanImpAux_false_zero]
            · by_cases hipat : st.in_pattern_section
              · cases hpat : ln.pat with
                | some s =>
                  by_cases hblank : ln.blank <;>
                    simp [parseLine, phaseInput, phaseCurr, phasePat,
                      scanImpAux, flagsOk, hfreq, hip, hinp', hch, hic, hsk,
                      hcur, hph, hipat, hpat, hblank, scanImpAux_false_zero]
                | none =>
                  by_cases hblank : ln.blank <;>
                    cases hpr : ln.power_rad <;> cases hpi : ln.power_in <;>
                      simp [parseLine, phaseInput, phaseCurr, phasePat,
                        scanImpAux, flagsOk, hfreq, hip, hinp', hch, hic,
                        hsk, hcur, hph, hipat, hpat, hblank, hpr, hpi,
                        scanImpAux_false_zero]
              · by_cases hblank : ln.blank <;>
                  cases hpr : ln.power_rad <;> cases hpi : ln.power_in <;>
                    simp [parseLine, phaseInput, phaseCurr, phasePat,
                      scanImpAux, flagsOk, hfreq, hip, hinp', hch, hic, hsk,
                      hcur, hph, hipat, hblank, hpr, hpi,
                      scanImpAux_false_zero]
        | succ n =>
          simp [parseLine, phaseInput, phaseCurr, scanImpAux, flagsOk,
            hfreq, hip, hinp', hch, hic, hsk, scanImpAux_false_zero]
      · by_cases hph : ln.pattern_header
        · simp [parseLine, phaseInput, phaseCurr, scanImpAux, flagsOk,
            hfreq, hip, hinp', hch, hic, hph, scanImpAux_false_zero]
        · by_cases hipat : st.in_pattern_section
          · cases hsk : st.skip_header_lines with
            | zero =>
              cases hpat : ln.pat with
              | some s =>
                simp [parseLine, phaseInput, phaseCurr, phasePat,
                  scanImpAux, flagsOk, hfreq, hip, hinp', hch, hic, hph,
                  hipat, hsk, hpat, scanImpAux_false_zero]
              | none =>
                by_cases hblank : ln.blank <;>
                  cases hpr : ln.power_rad <;> cases hpi : ln.power_in <;>
                    simp [parseLine, phaseInput, phaseCurr, phasePat,
                      scanImpAux, flagsOk, hfreq, hip, hinp', hch, hic, hph,
                      hipat, hsk, hpat, hblank, hpr, hpi,
                      scanImpAux_false_zero]
            | succ n =>
              simp [parseLine, phaseInput, phaseCurr, phasePat, scanImpAux,
                flagsOk, hfreq, hip, hinp', hch, hic, hph, hipat, hsk,
                scanImpAux_false_zero]
          · cases hpr : ln.power_rad <;> cases hpi : ln.power_in <;>
              simp [parseLine, phaseInput, phaseCurr, phasePat, scanImpAux,
                flagsOk, hfreq, hip, hinp', hch, hic, hph, hipat, hpr, hpi,
                scanImpAux_false_zero]

/-- The fold invariant: the number of results the scan will have produced
equals the results so far, plus the pending block's contribution, plus
one per emitting frequency header in the remaining lines. -/
theorem parse_fold_emits (cfg : ParseGeom) (cc : Bool) :
    ∀ (lines : List ParsedLine) (st : ParseState), flagsOk st →
      (flushState cfg cc (lines.foldl (parseLine cfg cc) st)).length =
        st.results.length + blockContrib cc lines st + countEmitted cc lines := by
  intro lines
  induction lines with
  | nil =>
    intro st _
    cases hf : st.current_freq with
    | none =>
      cases hi : st.current_impedance <;>
        simp [flushState, blockContrib, countEmitted, hf, hi]
    | some f =>
      cases hi : st.current_impedance <;>
        simp [flushState, blockContrib, countEmitted, scanImpAux, hf, hi]
  | cons ln rest ih =>
    intro st hflags
    rw [List.foldl_cons]
    cases hfq : ln.freq with
    | some f =>
      rw [ih _ (flagsOk_parseLine_freq cfg cc st ln f hfq)]
      cases hf : st.current_freq with
      | none =>
        cases hi : st.current_impedance <;>
          simp [parseLine, flushState, blockContrib, countEmitted,
            scanImpAux, scanImpAux_false_zero, hfq, hf, hi] <;>
          omega
      | some f0 =>
        cases hi : st.current_impedance <;>
          simp [parseLine, flushState, blockContrib, countEmitted,
            scanImpAux, scanImpAux_false_zero, hfq, hf, hi] <;>
          omega
    | none =>
      by_cases hip2 : ln.input_params
      · rw [ih _ (flagsOk_parseLine_ipheader cfg cc st ln hfq hip2)]
        cases hf : st.current_freq with
        | none =>
          simp [parseLine, blockContrib, countEmitted, hfq, hip2, hf]
        | some f0 =>
          cases hi : st.current_impedance <;>
            simp [parseLine, blockContrib, countEmitted, scanImpAux, hfq,
              hip2, hf, hi]
      · obtain ⟨hres, hfr, hscan, hflags'⟩ :=
          parseLine_scan_step cfg cc st ln rest hflags hfq
            (by simpa using hip2)
        rw [ih _ hflags']
        have hbc : blockContrib cc rest (parseLine cfg cc st ln) =
            blockContrib cc (ln :: rest) st := by
          unfold blockContrib
          rw [hfr]
          cases hf : st.current_freq with
          | none => rfl
          | some f0 => rw [hscan]
        have hce : countEmitted cc (ln :: rest) = countEmitted cc rest := by
          simp [countEmitted, hfq]
        rw [hbc, hres, hce]

/-- C9: `parse_nec_output` is total on the embedded scanner (it is a
plain function of the line list), and for every input and grid geometry
with nonzero steps it returns a (possibly empty) `FrequencyResult` list
with exactly one entry per frequency header that is followed by a parsed
impedance row before the next frequency header or the end of input. -/
theorem parse_nec_output_c9 (cfg : ParseGeom) (cc : Bool)
    (lines : List ParsedLine) (hθ : cfg.theta_step ≠ 0)
    (hφ : cfg.phi_step ≠ 0) :
    (parse_nec_output cfg cc lines).length = countEmitted cc lines := by
  unfold parse_nec_output
  rw [parse_fold_emits cfg cc lines initState flagsOk_initState]
  simp [initState, blockContrib]

/-- A frequency-header line. -/
def freqLine (f : ℚ) : ParsedLine :=
  ⟨some f, false, none, false, none, false, none, none, none, false⟩

/-- The `ANTENNA INPUT PARAMETERS` header line. -/
def ipHeaderLine : ParsedLine :=
  ⟨none, true, none, false, none, false, none, none, none, false⟩

/-- A column-header (no-match, non-blank) line. -/
def junkLine : ParsedLine :=
  ⟨none, false, none, false, none, false, none, none, none, false⟩

/-- An impedance data row with the given resistance/reactance captures. -/
def impLine (zr zi : ℚ) : ParsedLine :=
  ⟨none, false, some (zr, zi), false, none, false, none, none, none, false⟩

/-- The default geometry used in the C9 witness. -/
def witnessGeom : ParseGeom := ⟨37, 73, -90, 5, 0, 5⟩

theorem parse_nec_output_c9_witness :
    witnessGeom.theta_step ≠ 0 ∧ witnessGeom.phi_step ≠ 0 ∧
    (parse_nec_output witnessGeom false
      [freqLine 14, ipHeaderLine, junkLine, junkLine, impLine 50 0,
        freqLine 14.1, junkLine]).length =
      countEmitted false
        [freqLine 14, ipHeaderLine, junkLine, junkLine, impLine 50 0,
          freqLine 14.1, junkLine] ∧
    countEmitted false
      [freqLine 14, ipHeaderLine, junkLine, junkLine, impLine 50 0,
        freqLine 14.1, junkLine] = 1 := by
  refine ⟨by norm_num [witnessGeom], by norm_num [witnessGeom],
    parse_nec_output_c9 witnessGeom false _ (by norm_num [witnessGeom])
      (by norm_num [witnessGeom]), ?_⟩
  rfl

end AntennaSim
